import Mathlib

/-! # The generated forwarding layer `autogen_impl.h`

A shallow embedding of
`pypy/module/_hpy_universal/_vendored/hpy/devel/include/common/autogen_impl.h`.

Every function of that header forwards one call of the handle API to the native
object API.  The header declares neither the handle type, nor the two
conversion primitives `_h2py` and `_py2h`, nor the native functions, nor the C
types it mentions; they are parameters here:

* `Platform` fixes the opaque types and the widths of the C integer types;
* `Env` holds the two conversions and one field for each native function the
  header calls, with the prototype the call site shows.

Native functions act on the state of the interpreter, so each is a state
transformer over `Platform.State`: it takes the state before the call and
yields its result with the state after the call.  The two conversions are
functions of their argument, so the order in which C evaluates the converted
arguments of one call does not matter.  A value of a C integer type is an
integer inside the range of the type; a function of the header and the native
function it calls share the C type of each argument they hand over, so no C
conversion takes place at a call.
-/

set_option autoImplicit false

/-! ## C integer types -/

/-- Range of a C integer type of the given signedness and width: two's
complement for a signed type, `0 .. 2^bits - 1` for an unsigned one. -/
def CInt.InRange (signed : Bool) (bits : Nat) (v : Int) : Prop :=
  if signed then -(2 : Int) ^ (bits - 1) ≤ v ∧ v < (2 : Int) ^ (bits - 1)
  else 0 ≤ v ∧ v < (2 : Int) ^ bits

instance CInt.instDecidableInRange (signed : Bool) (bits : Nat) (v : Int) :
    Decidable (CInt.InRange signed bits v) := by
  unfold CInt.InRange
  exact inferInstance

/-- A value of a C integer type: an integer inside the range of the type. -/
abbrev CInt (signed : Bool) (bits : Nat) : Type :=
  { v : Int // CInt.InRange signed bits v }

/-- The integer a C conversion to the type yields: reduction modulo `2^bits`
into the range of the type (width at least one). -/
def CInt.wrap (signed : Bool) (bits : Nat) (v : Int) : Int :=
  if signed then (v + (2 : Int) ^ (bits - 1)) % (2 * (2 : Int) ^ (bits - 1)) - (2 : Int) ^ (bits - 1)
  else v % (2 : Int) ^ bits

/-- Conversion of an arbitrary integer to a C integer type. -/
def CInt.ofInt {signed : Bool} {bits : Nat} (v : Int) : CInt signed bits :=
  ⟨CInt.wrap signed bits v, by
    have hpos : (0 : Int) < (2 : Int) ^ (bits - 1) := by positivity
    have hpos2 : (0 : Int) < (2 : Int) ^ bits := by positivity
    unfold CInt.InRange CInt.wrap
    cases signed
    · simp only [Bool.false_eq_true, if_false]
      exact ⟨Int.emod_nonneg _ (ne_of_gt hpos2), Int.emod_lt_of_pos _ hpos2⟩
    · simp only [if_true]
      have h2 : (0 : Int) < 2 * (2 : Int) ^ (bits - 1) := by linarith
      have h0 := Int.emod_nonneg (v + (2 : Int) ^ (bits - 1)) (ne_of_gt h2)
      have h1 := Int.emod_lt_of_pos (v + (2 : Int) ^ (bits - 1)) h2
      constructor <;> linarith⟩

/-- The error sentinel of the native API in a C integer type: `-1` converted to
the type, that is `-1` for a signed type and `2^bits - 1` for an unsigned one. -/
def CInt.errSentinel {signed : Bool} {bits : Nat} : CInt signed bits :=
  CInt.ofInt (-1)

instance CInt.instInhabited (signed : Bool) (bits : Nat) : Inhabited (CInt signed bits) :=
  ⟨CInt.ofInt 0⟩

/-! ## Platform and native environment -/

/-- What the header leaves to its includer: the state the native functions act
on, the opaque types, and the widths of the C integer types. -/
structure Platform where
  /-- State of the native interpreter (objects, error indicator, ...). -/
  State : Type
  /-- The opaque handle type `HPy`. -/
  HPy : Type
  /-- The native object pointer type `PyObject *`. -/
  PyObject : Type
  /-- The context type `HPyContext`. -/
  HPyContext : Type
  /-- The C type `double`. -/
  Double : Type
  /-- The C pointer types `char *` and `const char *`. -/
  CharPtr : Type
  /-- The C pointer type `const wchar_t *`. -/
  WCharPtr : Type
  /-- Width of `int`. -/
  intBits : Nat
  /-- Width of `long` and `unsigned long`. -/
  longBits : Nat
  /-- Width of `long long` and `unsigned long long`. -/
  longLongBits : Nat
  /-- Width of `size_t`, `HPy_ssize_t` and `HPy_hash_t`. -/
  sizeBits : Nat

/-- C `int`. -/
abbrev CIntT (pf : Platform) : Type := CInt true pf.intBits
/-- C `long`. -/
abbrev CLong (pf : Platform) : Type := CInt true pf.longBits
/-- C `unsigned long`. -/
abbrev CULong (pf : Platform) : Type := CInt false pf.longBits
/-- C `long long`. -/
abbrev CLongLong (pf : Platform) : Type := CInt true pf.longLongBits
/-- C `unsigned long long`. -/
abbrev CULongLong (pf : Platform) : Type := CInt false pf.longLongBits
/-- C `size_t`. -/
abbrev CSize (pf : Platform) : Type := CInt false pf.sizeBits
/-- C `HPy_ssize_t`, which the native prototypes call `Py_ssize_t`. -/
abbrev CSsize (pf : Platform) : Type := CInt true pf.sizeBits
/-- C `HPy_hash_t`, which the native prototypes call `Py_hash_t`. -/
abbrev CHash (pf : Platform) : Type := CInt true pf.sizeBits

/-- A native call: a transformer of the interpreter state that yields a value. -/
abbrev Call (pf : Platform) (α : Type) : Type := StateM pf.State α

/-- The two conversion primitives and the native functions the header calls.
Each native function has the prototype its call site in the header shows: an
object pointer where the wrapper converts a handle, the wrapper's own C type
elsewhere. -/
structure Env (pf : Platform) where
  /-- Conversion of a handle to the native object pointer it stands for. -/
  _h2py : pf.HPy → pf.PyObject
  /-- Conversion of a native object pointer to a handle. -/
  _py2h : pf.PyObject → pf.HPy
  PyLong_FromLong : CLong pf → Call pf pf.PyObject
  PyLong_FromUnsignedLong : CULong pf → Call pf pf.PyObject
  PyLong_FromLongLong : CLongLong pf → Call pf pf.PyObject
  PyLong_FromUnsignedLongLong : CULongLong pf → Call pf pf.PyObject
  PyLong_FromSize_t : CSize pf → Call pf pf.PyObject
  PyLong_FromSsize_t : CSsize pf → Call pf pf.PyObject
  PyLong_AsLong : pf.PyObject → Call pf (CLong pf)
  PyLong_AsUnsignedLong : pf.PyObject → Call pf (CULong pf)
  PyLong_AsUnsignedLongMask : pf.PyObject → Call pf (CULong pf)
  PyLong_AsLongLong : pf.PyObject → Call pf (CLongLong pf)
  PyLong_AsUnsignedLongLong : pf.PyObject → Call pf (CULongLong pf)
  PyLong_AsUnsignedLongLongMask : pf.PyObject → Call pf (CULongLong pf)
  PyLong_AsSize_t : pf.PyObject → Call pf (CSize pf)
  PyLong_AsSsize_t : pf.PyObject → Call pf (CSsize pf)
  PyFloat_FromDouble : pf.Double → Call pf pf.PyObject
  PyFloat_AsDouble : pf.PyObject → Call pf pf.Double
  PyObject_Length : pf.PyObject → Call pf (CSsize pf)
  PyNumber_Check : pf.PyObject → Call pf (CIntT pf)
  PyNumber_Add : pf.PyObject → pf.PyObject → Call pf pf.PyObject
  PyNumber_Subtract : pf.PyObject → pf.PyObject → Call pf pf.PyObject
  PyNumber_Multiply : pf.PyObject → pf.PyObject → Call pf pf.PyObject
  PyNumber_MatrixMultiply : pf.PyObject → pf.PyObject → Call pf pf.PyObject
  PyNumber_FloorDivide : pf.PyObject → pf.PyObject → Call pf pf.PyObject
  PyNumber_TrueDivide : pf.PyObject → pf.PyObject → Call pf pf.PyObject
  PyNumber_Remainder : pf.PyObject → pf.PyObject → Call pf pf.PyObject
  PyNumber_Divmod : pf.PyObject → pf.PyObject → Call pf pf.PyObject
  PyNumber_Power : pf.PyObject → pf.PyObject → pf.PyObject → Call pf pf.PyObject
  PyNumber_Negative : pf.PyObject → Call pf pf.PyObject
  PyNumber_Positive : pf.PyObject → Call pf pf.PyObject
  PyNumber_Absolute : pf.PyObject → Call pf pf.PyObject
  PyNumber_Invert : pf.PyObject → Call pf pf.PyObject
  PyNumber_Lshift : pf.PyObject → pf.PyObject → Call pf pf.PyObject
  PyNumber_Rshift : pf.PyObject → pf.PyObject → Call pf pf.PyObject
  PyNumber_And : pf.PyObject → pf.PyObject → Call pf pf.PyObject
  PyNumber_Xor : pf.PyObject → pf.PyObject → Call pf pf.PyObject
  PyNumber_Or : pf.PyObject → pf.PyObject → Call pf pf.PyObject
  PyNumber_Index : pf.PyObject → Call pf pf.PyObject
  PyNumber_Long : pf.PyObject → Call pf pf.PyObject
  PyNumber_Float : pf.PyObject → Call pf pf.PyObject
  PyNumber_InPlaceAdd : pf.PyObject → pf.PyObject → Call pf pf.PyObject
  PyNumber_InPlaceSubtract : pf.PyObject → pf.PyObject → Call pf pf.PyObject
  PyNumber_InPlaceMultiply : pf.PyObject → pf.PyObject → Call pf pf.PyObject
  PyNumber_InPlaceMatrixMultiply : pf.PyObject → pf.PyObject → Call pf pf.PyObject
  PyNumber_InPlaceFloorDivide : pf.PyObject → pf.PyObject → Call pf pf.PyObject
  PyNumber_InPlaceTrueDivide : pf.PyObject → pf.PyObject → Call pf pf.PyObject
  PyNumber_InPlaceRemainder : pf.PyObject → pf.PyObject → Call pf pf.PyObject
  PyNumber_InPlacePower : pf.PyObject → pf.PyObject → pf.PyObject → Call pf pf.PyObject
  PyNumber_InPlaceLshift : pf.PyObject → pf.PyObject → Call pf pf.PyObject
  PyNumber_InPlaceRshift : pf.PyObject → pf.PyObject → Call pf pf.PyObject
  PyNumber_InPlaceAnd : pf.PyObject → pf.PyObject → Call pf pf.PyObject
  PyNumber_InPlaceXor : pf.PyObject → pf.PyObject → Call pf pf.PyObject
  PyNumber_InPlaceOr : pf.PyObject → pf.PyObject → Call pf pf.PyObject
  PyErr_SetString : pf.PyObject → pf.CharPtr → Call pf Unit
  PyErr_SetObject : pf.PyObject → pf.PyObject → Call pf Unit
  PyErr_NoMemory : Call pf pf.PyObject
  PyErr_Clear : Call pf Unit
  PyObject_IsTrue : pf.PyObject → Call pf (CIntT pf)
  PyObject_GetAttr : pf.PyObject → pf.PyObject → Call pf pf.PyObject
  PyObject_GetAttrString : pf.PyObject → pf.CharPtr → Call pf pf.PyObject
  PyObject_HasAttr : pf.PyObject → pf.PyObject → Call pf (CIntT pf)
  PyObject_HasAttrString : pf.PyObject → pf.CharPtr → Call pf (CIntT pf)
  PyObject_SetAttr : pf.PyObject → pf.PyObject → pf.PyObject → Call pf (CIntT pf)
  PyObject_SetAttrString : pf.PyObject → pf.CharPtr → pf.PyObject → Call pf (CIntT pf)
  PyObject_GetItem : pf.PyObject → pf.PyObject → Call pf pf.PyObject
  PyObject_SetItem : pf.PyObject → pf.PyObject → pf.PyObject → Call pf (CIntT pf)
  PyObject_Repr : pf.PyObject → Call pf pf.PyObject
  PyObject_Str : pf.PyObject → Call pf pf.PyObject
  PyObject_ASCII : pf.PyObject → Call pf pf.PyObject
  PyObject_Bytes : pf.PyObject → Call pf pf.PyObject
  PyObject_RichCompare : pf.PyObject → pf.PyObject → CIntT pf → Call pf pf.PyObject
  PyObject_RichCompareBool : pf.PyObject → pf.PyObject → CIntT pf → Call pf (CIntT pf)
  PyObject_Hash : pf.PyObject → Call pf (CHash pf)
  PyBytes_Check : pf.PyObject → Call pf (CIntT pf)
  PyBytes_Size : pf.PyObject → Call pf (CSsize pf)
  PyBytes_GET_SIZE : pf.PyObject → Call pf (CSsize pf)
  PyBytes_AsString : pf.PyObject → Call pf pf.CharPtr
  PyBytes_AS_STRING : pf.PyObject → Call pf pf.CharPtr
  PyBytes_FromString : pf.CharPtr → Call pf pf.PyObject
  PyBytes_FromStringAndSize : pf.CharPtr → CSsize pf → Call pf pf.PyObject
  PyUnicode_FromString : pf.CharPtr → Call pf pf.PyObject
  PyUnicode_Check : pf.PyObject → Call pf (CIntT pf)
  PyUnicode_AsUTF8String : pf.PyObject → Call pf pf.PyObject
  PyUnicode_FromWideChar : pf.WCharPtr → CSsize pf → Call pf pf.PyObject
  PyList_Check : pf.PyObject → Call pf (CIntT pf)
  PyList_New : CSsize pf → Call pf pf.PyObject
  PyList_Append : pf.PyObject → pf.PyObject → Call pf (CIntT pf)
  PyDict_Check : pf.PyObject → Call pf (CIntT pf)
  PyDict_New : Call pf pf.PyObject

set_option linter.unusedVariables false

/-! ## The functions of the header

One definition for each function, in the order of the header.  The macros
`_HPy_IMPL_NAME(X)` and `_HPy_IMPL_NAME_NOPREFIX(X)` that build the C name are
not in the header; each function is named `Impl.X` here.  A `return _py2h(e)`
maps `_py2h` over the result of the native call `e`; a body without `_py2h` is
the native call itself. -/

/-- Line 11, `HPy Long_FromLong(HPyContext ctx, long value)`, whose body is `return _py2h(PyLong_FromLong(value));`. -/
def Impl.Long_FromLong {pf : Platform} (api : Env pf) (ctx : pf.HPyContext) (value : CLong pf) :
    Call pf pf.HPy :=
  api._py2h <$> api.PyLong_FromLong value

/-- Line 16, `HPy Long_FromUnsignedLong(HPyContext ctx, unsigned long value)`, whose body is `return _py2h(PyLong_FromUnsignedLong(value));`. -/
def Impl.Long_FromUnsignedLong {pf : Platform} (api : Env pf) (ctx : pf.HPyContext) (value : CULong pf) :
    Call pf pf.HPy :=
  api._py2h <$> api.PyLong_FromUnsignedLong value

/-- Line 21, `HPy Long_FromLongLong(HPyContext ctx, long long v)`, whose body is `return _py2h(PyLong_FromLongLong(v));`. -/
def Impl.Long_FromLongLong {pf : Platform} (api : Env pf) (ctx : pf.HPyContext) (v : CLongLong pf) :
    Call pf pf.HPy :=
  api._py2h <$> api.PyLong_FromLongLong v

/-- Line 26, `HPy Long_FromUnsignedLongLong(HPyContext ctx, unsigned long long v)`, whose body is `return _py2h(PyLong_FromUnsignedLongLong(v));`. -/
def Impl.Long_FromUnsignedLongLong {pf : Platform} (api : Env pf) (ctx : pf.HPyContext) (v : CULongLong pf) :
    Call pf pf.HPy :=
  api._py2h <$> api.PyLong_FromUnsignedLongLong v

/-- Line 31, `HPy Long_FromSize_t(HPyContext ctx, size_t value)`, whose body is `return _py2h(PyLong_FromSize_t(value));`. -/
def Impl.Long_FromSize_t {pf : Platform} (api : Env pf) (ctx : pf.HPyContext) (value : CSize pf) :
    Call pf pf.HPy :=
  api._py2h <$> api.PyLong_FromSize_t value

/-- Line 36, `HPy Long_FromSsize_t(HPyContext ctx, HPy_ssize_t value)`, whose body is `return _py2h(PyLong_FromSsize_t(value));`. -/
def Impl.Long_FromSsize_t {pf : Platform} (api : Env pf) (ctx : pf.HPyContext) (value : CSsize pf) :
    Call pf pf.HPy :=
  api._py2h <$> api.PyLong_FromSsize_t value

/-- Line 41, `long Long_AsLong(HPyContext ctx, HPy h)`, whose body is `return PyLong_AsLong(_h2py(h));`. -/
def Impl.Long_AsLong {pf : Platform} (api : Env pf) (ctx : pf.HPyContext) (h : pf.HPy) :
    Call pf (CLong pf) :=
  api.PyLong_AsLong (api._h2py h)

/-- Line 46, `unsigned long Long_AsUnsignedLong(HPyContext ctx, HPy h)`, whose body is `return PyLong_AsUnsignedLong(_h2py(h));`. -/
def Impl.Long_AsUnsignedLong {pf : Platform} (api : Env pf) (ctx : pf.HPyContext) (h : pf.HPy) :
    Call pf (CULong pf) :=
  api.PyLong_AsUnsignedLong (api._h2py h)

/-- Line 51, `unsigned long Long_AsUnsignedLongMask(HPyContext ctx, HPy h)`, whose body is `return PyLong_AsUnsignedLongMask(_h2py(h));`. -/
def Impl.Long_AsUnsignedLongMask {pf : Platform} (api : Env pf) (ctx : pf.HPyContext) (h : pf.HPy) :
    Call pf (CULong pf) :=
  api.PyLong_AsUnsignedLongMask (api._h2py h)

/-- Line 56, `long long Long_AsLongLong(HPyContext ctx, HPy h)`, whose body is `return PyLong_AsLongLong(_h2py(h));`. -/
def Impl.Long_AsLongLong {pf : Platform} (api : Env pf) (ctx : pf.HPyContext) (h : pf.HPy) :
    Call pf (CLongLong pf) :=
  api.PyLong_AsLongLong (api._h2py h)

/-- Line 61, `unsigned long long Long_AsUnsignedLongLong(HPyContext ctx, HPy h)`, whose body is `return PyLong_AsUnsignedLongLong(_h2py(h));`. -/
def Impl.Long_AsUnsignedLongLong {pf : Platform} (api : Env pf) (ctx : pf.HPyContext) (h : pf.HPy) :
    Call pf (CULongLong pf) :=
  api.PyLong_AsUnsignedLongLong (api._h2py h)

/-- Line 66, `unsigned long long Long_AsUnsignedLongLongMask(HPyContext ctx, HPy h)`, whose body is `return PyLong_AsUnsignedLongLongMask(_h2py(h));`. -/
def Impl.Long_AsUnsignedLongLongMask {pf : Platform} (api : Env pf) (ctx : pf.HPyContext) (h : pf.HPy) :
    Call pf (CULongLong pf) :=
  api.PyLong_AsUnsignedLongLongMask (api._h2py h)

/-- Line 71, `size_t Long_AsSize_t(HPyContext ctx, HPy h)`, whose body is `return PyLong_AsSize_t(_h2py(h));`. -/
def Impl.Long_AsSize_t {pf : Platform} (api : Env pf) (ctx : pf.HPyContext) (h : pf.HPy) :
    Call pf (CSize pf) :=
  api.PyLong_AsSize_t (api._h2py h)

/-- Line 76, `HPy_ssize_t Long_AsSsize_t(HPyContext ctx, HPy h)`, whose body is `return PyLong_AsSsize_t(_h2py(h));`. -/
def Impl.Long_AsSsize_t {pf : Platform} (api : Env pf) (ctx : pf.HPyContext) (h : pf.HPy) :
    Call pf (CSsize pf) :=
  api.PyLong_AsSsize_t (api._h2py h)

/-- Line 81, `HPy Float_FromDouble(HPyContext ctx, double v)`, whose body is `return _py2h(PyFloat_FromDouble(v));`. -/
def Impl.Float_FromDouble {pf : Platform} (api : Env pf) (ctx : pf.HPyContext) (v : pf.Double) :
    Call pf pf.HPy :=
  api._py2h <$> api.PyFloat_FromDouble v

/-- Line 86, `double Float_AsDouble(HPyContext ctx, HPy h)`, whose body is `return PyFloat_AsDouble(_h2py(h));`. -/
def Impl.Float_AsDouble {pf : Platform} (api : Env pf) (ctx : pf.HPyContext) (h : pf.HPy) :
    Call pf pf.Double :=
  api.PyFloat_AsDouble (api._h2py h)

/-- Line 91, `HPy_ssize_t Length(HPyContext ctx, HPy h)`, whose body is `return PyObject_Length(_h2py(h));`. -/
def Impl.Length {pf : Platform} (api : Env pf) (ctx : pf.HPyContext) (h : pf.HPy) :
    Call pf (CSsize pf) :=
  api.PyObject_Length (api._h2py h)

/-- Line 96, `int Number_Check(HPyContext ctx, HPy h)`, whose body is `return PyNumber_Check(_h2py(h));`. -/
def Impl.Number_Check {pf : Platform} (api : Env pf) (ctx : pf.HPyContext) (h : pf.HPy) :
    Call pf (CIntT pf) :=
  api.PyNumber_Check (api._h2py h)

/-- Line 101, `HPy Add(HPyContext ctx, HPy h1, HPy h2)`, whose body is `return _py2h(PyNumber_Add(_h2py(h1), _h2py(h2)));`. -/
def Impl.Add {pf : Platform} (api : Env pf) (ctx : pf.HPyContext) (h1 : pf.HPy) (h2 : pf.HPy) :
    Call pf pf.HPy :=
  api._py2h <$> api.PyNumber_Add (api._h2py h1) (api._h2py h2)

/-- Line 106, `HPy Subtract(HPyContext ctx, HPy h1, HPy h2)`, whose body is `return _py2h(PyNumber_Subtract(_h2py(h1), _h2py(h2)));`. -/
def Impl.Subtract {pf : Platform} (api : Env pf) (ctx : pf.HPyContext) (h1 : pf.HPy) (h2 : pf.HPy) :
    Call pf pf.HPy :=
  api._py2h <$> api.PyNumber_Subtract (api._h2py h1) (api._h2py h2)

/-- Line 111, `HPy Multiply(HPyContext ctx, HPy h1, HPy h2)`, whose body is `return _py2h(PyNumber_Multiply(_h2py(h1), _h2py(h2)));`. -/
def Impl.Multiply {pf : Platform} (api : Env pf) (ctx : pf.HPyContext) (h1 : pf.HPy) (h2 : pf.HPy) :
    Call pf pf.HPy :=
  api._py2h <$> api.PyNumber_Multiply (api._h2py h1) (api._h2py h2)

/-- Line 116, `HPy MatrixMultiply(HPyContext ctx, HPy h1, HPy h2)`, whose body is `return _py2h(PyNumber_MatrixMultiply(_h2py(h1), _h2py(h2)));`. -/
def Impl.MatrixMultiply {pf : Platform} (api : Env pf) (ctx : pf.HPyContext) (h1 : pf.HPy) (h2 : pf.HPy) :
    Call pf pf.HPy :=
  api._py2h <$> api.PyNumber_MatrixMultiply (api._h2py h1) (api._h2py h2)

/-- Line 121, `HPy FloorDivide(HPyContext ctx, HPy h1, HPy h2)`, whose body is `return _py2h(PyNumber_FloorDivide(_h2py(h1), _h2py(h2)));`. -/
def Impl.FloorDivide {pf : Platform} (api : Env pf) (ctx : pf.HPyContext) (h1 : pf.HPy) (h2 : pf.HPy) :
    Call pf pf.HPy :=
  api._py2h <$> api.PyNumber_FloorDivide (api._h2py h1) (api._h2py h2)

/-- Line 126, `HPy TrueDivide(HPyContext ctx, HPy h1, HPy h2)`, whose body is `return _py2h(PyNumber_TrueDivide(_h2py(h1), _h2py(h2)));`. -/
def Impl.TrueDivide {pf : Platform} (api : Env pf) (ctx : pf.HPyContext) (h1 : pf.HPy) (h2 : pf.HPy) :
    Call pf pf.HPy :=
  api._py2h <$> api.PyNumber_TrueDivide (api._h2py h1) (api._h2py h2)

/-- Line 131, `HPy Remainder(HPyContext ctx, HPy h1, HPy h2)`, whose body is `return _py2h(PyNumber_Remainder(_h2py(h1), _h2py(h2)));`. -/
def Impl.Remainder {pf : Platform} (api : Env pf) (ctx : pf.HPyContext) (h1 : pf.HPy) (h2 : pf.HPy) :
    Call pf pf.HPy :=
  api._py2h <$> api.PyNumber_Remainder (api._h2py h1) (api._h2py h2)

/-- Line 136, `HPy Divmod(HPyContext ctx, HPy h1, HPy h2)`, whose body is `return _py2h(PyNumber_Divmod(_h2py(h1), _h2py(h2)));`. -/
def Impl.Divmod {pf : Platform} (api : Env pf) (ctx : pf.HPyContext) (h1 : pf.HPy) (h2 : pf.HPy) :
    Call pf pf.HPy :=
  api._py2h <$> api.PyNumber_Divmod (api._h2py h1) (api._h2py h2)

/-- Line 141, `HPy Power(HPyContext ctx, HPy h1, HPy h2, HPy h3)`, whose body is `return _py2h(PyNumber_Power(_h2py(h1), _h2py(h2), _h2py(h3)));`. -/
def Impl.Power {pf : Platform} (api : Env pf) (ctx : pf.HPyContext) (h1 : pf.HPy) (h2 : pf.HPy) (h3 : pf.HPy) :
    Call pf pf.HPy :=
  api._py2h <$> api.PyNumber_Power (api._h2py h1) (api._h2py h2) (api._h2py h3)

/-- Line 146, `HPy Negative(HPyContext ctx, HPy h1)`, whose body is `return _py2h(PyNumber_Negative(_h2py(h1)));`. -/
def Impl.Negative {pf : Platform} (api : Env pf) (ctx : pf.HPyContext) (h1 : pf.HPy) :
    Call pf pf.HPy :=
  api._py2h <$> api.PyNumber_Negative (api._h2py h1)

/-- Line 151, `HPy Positive(HPyContext ctx, HPy h1)`, whose body is `return _py2h(PyNumber_Positive(_h2py(h1)));`. -/
def Impl.Positive {pf : Platform} (api : Env pf) (ctx : pf.HPyContext) (h1 : pf.HPy) :
    Call pf pf.HPy :=
  api._py2h <$> api.PyNumber_Positive (api._h2py h1)

/-- Line 156, `HPy Absolute(HPyContext ctx, HPy h1)`, whose body is `return _py2h(PyNumber_Absolute(_h2py(h1)));`. -/
def Impl.Absolute {pf : Platform} (api : Env pf) (ctx : pf.HPyContext) (h1 : pf.HPy) :
    Call pf pf.HPy :=
  api._py2h <$> api.PyNumber_Absolute (api._h2py h1)

/-- Line 161, `HPy Invert(HPyContext ctx, HPy h1)`, whose body is `return _py2h(PyNumber_Invert(_h2py(h1)));`. -/
def Impl.Invert {pf : Platform} (api : Env pf) (ctx : pf.HPyContext) (h1 : pf.HPy) :
    Call pf pf.HPy :=
  api._py2h <$> api.PyNumber_Invert (api._h2py h1)

/-- Line 166, `HPy Lshift(HPyContext ctx, HPy h1, HPy h2)`, whose body is `return _py2h(PyNumber_Lshift(_h2py(h1), _h2py(h2)));`. -/
def Impl.Lshift {pf : Platform} (api : Env pf) (ctx : pf.HPyContext) (h1 : pf.HPy) (h2 : pf.HPy) :
    Call pf pf.HPy :=
  api._py2h <$> api.PyNumber_Lshift (api._h2py h1) (api._h2py h2)

/-- Line 171, `HPy Rshift(HPyContext ctx, HPy h1, HPy h2)`, whose body is `return _py2h(PyNumber_Rshift(_h2py(h1), _h2py(h2)));`. -/
def Impl.Rshift {pf : Platform} (api : Env pf) (ctx : pf.HPyContext) (h1 : pf.HPy) (h2 : pf.HPy) :
    Call pf pf.HPy :=
  api._py2h <$> api.PyNumber_Rshift (api._h2py h1) (api._h2py h2)

/-- Line 176, `HPy And(HPyContext ctx, HPy h1, HPy h2)`, whose body is `return _py2h(PyNumber_And(_h2py(h1), _h2py(h2)));`. -/
def Impl.And {pf : Platform} (api : Env pf) (ctx : pf.HPyContext) (h1 : pf.HPy) (h2 : pf.HPy) :
    Call pf pf.HPy :=
  api._py2h <$> api.PyNumber_And (api._h2py h1) (api._h2py h2)

/-- Line 181, `HPy Xor(HPyContext ctx, HPy h1, HPy h2)`, whose body is `return _py2h(PyNumber_Xor(_h2py(h1), _h2py(h2)));`. -/
def Impl.Xor {pf : Platform} (api : Env pf) (ctx : pf.HPyContext) (h1 : pf.HPy) (h2 : pf.HPy) :
    Call pf pf.HPy :=
  api._py2h <$> api.PyNumber_Xor (api._h2py h1) (api._h2py h2)

/-- Line 186, `HPy Or(HPyContext ctx, HPy h1, HPy h2)`, whose body is `return _py2h(PyNumber_Or(_h2py(h1), _h2py(h2)));`. -/
def Impl.Or {pf : Platform} (api : Env pf) (ctx : pf.HPyContext) (h1 : pf.HPy) (h2 : pf.HPy) :
    Call pf pf.HPy :=
  api._py2h <$> api.PyNumber_Or (api._h2py h1) (api._h2py h2)

/-- Line 191, `HPy Index(HPyContext ctx, HPy h1)`, whose body is `return _py2h(PyNumber_Index(_h2py(h1)));`. -/
def Impl.Index {pf : Platform} (api : Env pf) (ctx : pf.HPyContext) (h1 : pf.HPy) :
    Call pf pf.HPy :=
  api._py2h <$> api.PyNumber_Index (api._h2py h1)

/-- Line 196, `HPy Long(HPyContext ctx, HPy h1)`, whose body is `return _py2h(PyNumber_Long(_h2py(h1)));`. -/
def Impl.Long {pf : Platform} (api : Env pf) (ctx : pf.HPyContext) (h1 : pf.HPy) :
    Call pf pf.HPy :=
  api._py2h <$> api.PyNumber_Long (api._h2py h1)

/-- Line 201, `HPy Float(HPyContext ctx, HPy h1)`, whose body is `return _py2h(PyNumber_Float(_h2py(h1)));`. -/
def Impl.Float {pf : Platform} (api : Env pf) (ctx : pf.HPyContext) (h1 : pf.HPy) :
    Call pf pf.HPy :=
  api._py2h <$> api.PyNumber_Float (api._h2py h1)

/-- Line 206, `HPy InPlaceAdd(HPyContext ctx, HPy h1, HPy h2)`, whose body is `return _py2h(PyNumber_InPlaceAdd(_h2py(h1), _h2py(h2)));`. -/
def Impl.InPlaceAdd {pf : Platform} (api : Env pf) (ctx : pf.HPyContext) (h1 : pf.HPy) (h2 : pf.HPy) :
    Call pf pf.HPy :=
  api._py2h <$> api.PyNumber_InPlaceAdd (api._h2py h1) (api._h2py h2)

/-- Line 211, `HPy InPlaceSubtract(HPyContext ctx, HPy h1, HPy h2)`, whose body is `return _py2h(PyNumber_InPlaceSubtract(_h2py(h1), _h2py(h2)));`. -/
def Impl.InPlaceSubtract {pf : Platform} (api : Env pf) (ctx : pf.HPyContext) (h1 : pf.HPy) (h2 : pf.HPy) :
    Call pf pf.HPy :=
  api._py2h <$> api.PyNumber_InPlaceSubtract (api._h2py h1) (api._h2py h2)

/-- Line 216, `HPy InPlaceMultiply(HPyContext ctx, HPy h1, HPy h2)`, whose body is `return _py2h(PyNumber_InPlaceMultiply(_h2py(h1), _h2py(h2)));`. -/
def Impl.InPlaceMultiply {pf : Platform} (api : Env pf) (ctx : pf.HPyContext) (h1 : pf.HPy) (h2 : pf.HPy) :
    Call pf pf.HPy :=
  api._py2h <$> api.PyNumber_InPlaceMultiply (api._h2py h1) (api._h2py h2)

/-- Line 221, `HPy InPlaceMatrixMultiply(HPyContext ctx, HPy h1, HPy h2)`, whose body is `return _py2h(PyNumber_InPlaceMatrixMultiply(_h2py(h1), _h2py(h2)));`. -/
def Impl.InPlaceMatrixMultiply {pf : Platform} (api : Env pf) (ctx : pf.HPyContext) (h1 : pf.HPy) (h2 : pf.HPy) :
    Call pf pf.HPy :=
  api._py2h <$> api.PyNumber_InPlaceMatrixMultiply (api._h2py h1) (api._h2py h2)

/-- Line 226, `HPy InPlaceFloorDivide(HPyContext ctx, HPy h1, HPy h2)`, whose body is `return _py2h(PyNumber_InPlaceFloorDivide(_h2py(h1), _h2py(h2)));`. -/
def Impl.InPlaceFloorDivide {pf : Platform} (api : Env pf) (ctx : pf.HPyContext) (h1 : pf.HPy) (h2 : pf.HPy) :
    Call pf pf.HPy :=
  api._py2h <$> api.PyNumber_InPlaceFloorDivide (api._h2py h1) (api._h2py h2)

/-- Line 231, `HPy InPlaceTrueDivide(HPyContext ctx, HPy h1, HPy h2)`, whose body is `return _py2h(PyNumber_InPlaceTrueDivide(_h2py(h1), _h2py(h2)));`. -/
def Impl.InPlaceTrueDivide {pf : Platform} (api : Env pf) (ctx : pf.HPyContext) (h1 : pf.HPy) (h2 : pf.HPy) :
    Call pf pf.HPy :=
  api._py2h <$> api.PyNumber_InPlaceTrueDivide (api._h2py h1) (api._h2py h2)

/-- Line 236, `HPy InPlaceRemainder(HPyContext ctx, HPy h1, HPy h2)`, whose body is `return _py2h(PyNumber_InPlaceRemainder(_h2py(h1), _h2py(h2)));`. -/
def Impl.InPlaceRemainder {pf : Platform} (api : Env pf) (ctx : pf.HPyContext) (h1 : pf.HPy) (h2 : pf.HPy) :
    Call pf pf.HPy :=
  api._py2h <$> api.PyNumber_InPlaceRemainder (api._h2py h1) (api._h2py h2)

/-- Line 241, `HPy InPlacePower(HPyContext ctx, HPy h1, HPy h2, HPy h3)`, whose body is `return _py2h(PyNumber_InPlacePower(_h2py(h1), _h2py(h2), _h2py(h3)));`. -/
def Impl.InPlacePower {pf : Platform} (api : Env pf) (ctx : pf.HPyContext) (h1 : pf.HPy) (h2 : pf.HPy) (h3 : pf.HPy) :
    Call pf pf.HPy :=
  api._py2h <$> api.PyNumber_InPlacePower (api._h2py h1) (api._h2py h2) (api._h2py h3)

/-- Line 246, `HPy InPlaceLshift(HPyContext ctx, HPy h1, HPy h2)`, whose body is `return _py2h(PyNumber_InPlaceLshift(_h2py(h1), _h2py(h2)));`. -/
def Impl.InPlaceLshift {pf : Platform} (api : Env pf) (ctx : pf.HPyContext) (h1 : pf.HPy) (h2 : pf.HPy) :
    Call pf pf.HPy :=
  api._py2h <$> api.PyNumber_InPlaceLshift (api._h2py h1) (api._h2py h2)

/-- Line 251, `HPy InPlaceRshift(HPyContext ctx, HPy h1, HPy h2)`, whose body is `return _py2h(PyNumber_InPlaceRshift(_h2py(h1), _h2py(h2)));`. -/
def Impl.InPlaceRshift {pf : Platform} (api : Env pf) (ctx : pf.HPyContext) (h1 : pf.HPy) (h2 : pf.HPy) :
    Call pf pf.HPy :=
  api._py2h <$> api.PyNumber_InPlaceRshift (api._h2py h1) (api._h2py h2)

/-- Line 256, `HPy InPlaceAnd(HPyContext ctx, HPy h1, HPy h2)`, whose body is `return _py2h(PyNumber_InPlaceAnd(_h2py(h1), _h2py(h2)));`. -/
def Impl.InPlaceAnd {pf : Platform} (api : Env pf) (ctx : pf.HPyContext) (h1 : pf.HPy) (h2 : pf.HPy) :
    Call pf pf.HPy :=
  api._py2h <$> api.PyNumber_InPlaceAnd (api._h2py h1) (api._h2py h2)

/-- Line 261, `HPy InPlaceXor(HPyContext ctx, HPy h1, HPy h2)`, whose body is `return _py2h(PyNumber_InPlaceXor(_h2py(h1), _h2py(h2)));`. -/
def Impl.InPlaceXor {pf : Platform} (api : Env pf) (ctx : pf.HPyContext) (h1 : pf.HPy) (h2 : pf.HPy) :
    Call pf pf.HPy :=
  api._py2h <$> api.PyNumber_InPlaceXor (api._h2py h1) (api._h2py h2)

/-- Line 266, `HPy InPlaceOr(HPyContext ctx, HPy h1, HPy h2)`, whose body is `return _py2h(PyNumber_InPlaceOr(_h2py(h1), _h2py(h2)));`. -/
def Impl.InPlaceOr {pf : Platform} (api : Env pf) (ctx : pf.HPyContext) (h1 : pf.HPy) (h2 : pf.HPy) :
    Call pf pf.HPy :=
  api._py2h <$> api.PyNumber_InPlaceOr (api._h2py h1) (api._h2py h2)

/-- Line 271, `void Err_SetString(HPyContext ctx, HPy h_type, const char *message)`, whose body is `PyErr_SetString(_h2py(h_type), message);`. -/
def Impl.Err_SetString {pf : Platform} (api : Env pf) (ctx : pf.HPyContext) (h_type : pf.HPy) (message : pf.CharPtr) :
    Call pf Unit :=
  api.PyErr_SetString (api._h2py h_type) message

/-- Line 276, `void Err_SetObject(HPyContext ctx, HPy h_type, HPy h_value)`, whose body is `PyErr_SetObject(_h2py(h_type), _h2py(h_value));`. -/
def Impl.Err_SetObject {pf : Platform} (api : Env pf) (ctx : pf.HPyContext) (h_type : pf.HPy) (h_value : pf.HPy) :
    Call pf Unit :=
  api.PyErr_SetObject (api._h2py h_type) (api._h2py h_value)

/-- Line 281, `HPy Err_NoMemory(HPyContext ctx)`, whose body is `return _py2h(PyErr_NoMemory());`. -/
def Impl.Err_NoMemory {pf : Platform} (api : Env pf) (ctx : pf.HPyContext) :
    Call pf pf.HPy :=
  api._py2h <$> api.PyErr_NoMemory

/-- Line 286, `void Err_Clear(HPyContext ctx)`, whose body is `PyErr_Clear();`. -/
def Impl.Err_Clear {pf : Platform} (api : Env pf) (ctx : pf.HPyContext) :
    Call pf Unit :=
  api.PyErr_Clear

/-- Line 291, `int IsTrue(HPyContext ctx, HPy h)`, whose body is `return PyObject_IsTrue(_h2py(h));`. -/
def Impl.IsTrue {pf : Platform} (api : Env pf) (ctx : pf.HPyContext) (h : pf.HPy) :
    Call pf (CIntT pf) :=
  api.PyObject_IsTrue (api._h2py h)

/-- Line 296, `HPy GetAttr(HPyContext ctx, HPy obj, HPy name)`, whose body is `return _py2h(PyObject_GetAttr(_h2py(obj), _h2py(name)));`. -/
def Impl.GetAttr {pf : Platform} (api : Env pf) (ctx : pf.HPyContext) (obj : pf.HPy) (name : pf.HPy) :
    Call pf pf.HPy :=
  api._py2h <$> api.PyObject_GetAttr (api._h2py obj) (api._h2py name)

/-- Line 301, `HPy GetAttr_s(HPyContext ctx, HPy obj, const char *name)`, whose body is `return _py2h(PyObject_GetAttrString(_h2py(obj), name));`. -/
def Impl.GetAttr_s {pf : Platform} (api : Env pf) (ctx : pf.HPyContext) (obj : pf.HPy) (name : pf.CharPtr) :
    Call pf pf.HPy :=
  api._py2h <$> api.PyObject_GetAttrString (api._h2py obj) name

/-- Line 306, `int HasAttr(HPyContext ctx, HPy obj, HPy name)`, whose body is `return PyObject_HasAttr(_h2py(obj), _h2py(name));`. -/
def Impl.HasAttr {pf : Platform} (api : Env pf) (ctx : pf.HPyContext) (obj : pf.HPy) (name : pf.HPy) :
    Call pf (CIntT pf) :=
  api.PyObject_HasAttr (api._h2py obj) (api._h2py name)

/-- Line 311, `int HasAttr_s(HPyContext ctx, HPy obj, const char *name)`, whose body is `return PyObject_HasAttrString(_h2py(obj), name);`. -/
def Impl.HasAttr_s {pf : Platform} (api : Env pf) (ctx : pf.HPyContext) (obj : pf.HPy) (name : pf.CharPtr) :
    Call pf (CIntT pf) :=
  api.PyObject_HasAttrString (api._h2py obj) name

/-- Line 316, `int SetAttr(HPyContext ctx, HPy obj, HPy name, HPy value)`, whose body is `return PyObject_SetAttr(_h2py(obj), _h2py(name), _h2py(value));`. -/
def Impl.SetAttr {pf : Platform} (api : Env pf) (ctx : pf.HPyContext) (obj : pf.HPy) (name : pf.HPy) (value : pf.HPy) :
    Call pf (CIntT pf) :=
  api.PyObject_SetAttr (api._h2py obj) (api._h2py name) (api._h2py value)

/-- Line 321, `int SetAttr_s(HPyContext ctx, HPy obj, const char *name, HPy value)`, whose body is `return PyObject_SetAttrString(_h2py(obj), name, _h2py(value));`. -/
def Impl.SetAttr_s {pf : Platform} (api : Env pf) (ctx : pf.HPyContext) (obj : pf.HPy) (name : pf.CharPtr) (value : pf.HPy) :
    Call pf (CIntT pf) :=
  api.PyObject_SetAttrString (api._h2py obj) name (api._h2py value)

/-- Line 326, `HPy GetItem(HPyContext ctx, HPy obj, HPy key)`, whose body is `return _py2h(PyObject_GetItem(_h2py(obj), _h2py(key)));`. -/
def Impl.GetItem {pf : Platform} (api : Env pf) (ctx : pf.HPyContext) (obj : pf.HPy) (key : pf.HPy) :
    Call pf pf.HPy :=
  api._py2h <$> api.PyObject_GetItem (api._h2py obj) (api._h2py key)

/-- Line 331, `int SetItem(HPyContext ctx, HPy obj, HPy key, HPy value)`, whose body is `return PyObject_SetItem(_h2py(obj), _h2py(key), _h2py(value));`. -/
def Impl.SetItem {pf : Platform} (api : Env pf) (ctx : pf.HPyContext) (obj : pf.HPy) (key : pf.HPy) (value : pf.HPy) :
    Call pf (CIntT pf) :=
  api.PyObject_SetItem (api._h2py obj) (api._h2py key) (api._h2py value)

/-- Line 336, `HPy Repr(HPyContext ctx, HPy obj)`, whose body is `return _py2h(PyObject_Repr(_h2py(obj)));`. -/
def Impl.Repr {pf : Platform} (api : Env pf) (ctx : pf.HPyContext) (obj : pf.HPy) :
    Call pf pf.HPy :=
  api._py2h <$> api.PyObject_Repr (api._h2py obj)

/-- Line 341, `HPy Str(HPyContext ctx, HPy obj)`, whose body is `return _py2h(PyObject_Str(_h2py(obj)));`. -/
def Impl.Str {pf : Platform} (api : Env pf) (ctx : pf.HPyContext) (obj : pf.HPy) :
    Call pf pf.HPy :=
  api._py2h <$> api.PyObject_Str (api._h2py obj)

/-- Line 346, `HPy ASCII(HPyContext ctx, HPy obj)`, whose body is `return _py2h(PyObject_ASCII(_h2py(obj)));`. -/
def Impl.ASCII {pf : Platform} (api : Env pf) (ctx : pf.HPyContext) (obj : pf.HPy) :
    Call pf pf.HPy :=
  api._py2h <$> api.PyObject_ASCII (api._h2py obj)

/-- Line 351, `HPy Bytes(HPyContext ctx, HPy obj)`, whose body is `return _py2h(PyObject_Bytes(_h2py(obj)));`. -/
def Impl.Bytes {pf : Platform} (api : Env pf) (ctx : pf.HPyContext) (obj : pf.HPy) :
    Call pf pf.HPy :=
  api._py2h <$> api.PyObject_Bytes (api._h2py obj)

/-- Line 356, `HPy RichCompare(HPyContext ctx, HPy v, HPy w, int op)`, whose body is `return _py2h(PyObject_RichCompare(_h2py(v), _h2py(w), op));`. -/
def Impl.RichCompare {pf : Platform} (api : Env pf) (ctx : pf.HPyContext) (v : pf.HPy) (w : pf.HPy) (op : CIntT pf) :
    Call pf pf.HPy :=
  api._py2h <$> api.PyObject_RichCompare (api._h2py v) (api._h2py w) op

/-- Line 361, `int RichCompareBool(HPyContext ctx, HPy v, HPy w, int op)`, whose body is `return PyObject_RichCompareBool(_h2py(v), _h2py(w), op);`. -/
def Impl.RichCompareBool {pf : Platform} (api : Env pf) (ctx : pf.HPyContext) (v : pf.HPy) (w : pf.HPy) (op : CIntT pf) :
    Call pf (CIntT pf) :=
  api.PyObject_RichCompareBool (api._h2py v) (api._h2py w) op

/-- Line 366, `HPy_hash_t Hash(HPyContext ctx, HPy obj)`, whose body is `return PyObject_Hash(_h2py(obj));`. -/
def Impl.Hash {pf : Platform} (api : Env pf) (ctx : pf.HPyContext) (obj : pf.HPy) :
    Call pf (CHash pf) :=
  api.PyObject_Hash (api._h2py obj)

/-- Line 371, `int Bytes_Check(HPyContext ctx, HPy h)`, whose body is `return PyBytes_Check(_h2py(h));`. -/
def Impl.Bytes_Check {pf : Platform} (api : Env pf) (ctx : pf.HPyContext) (h : pf.HPy) :
    Call pf (CIntT pf) :=
  api.PyBytes_Check (api._h2py h)

/-- Line 376, `HPy_ssize_t Bytes_Size(HPyContext ctx, HPy h)`, whose body is `return PyBytes_Size(_h2py(h));`. -/
def Impl.Bytes_Size {pf : Platform} (api : Env pf) (ctx : pf.HPyContext) (h : pf.HPy) :
    Call pf (CSsize pf) :=
  api.PyBytes_Size (api._h2py h)

/-- Line 381, `HPy_ssize_t Bytes_GET_SIZE(HPyContext ctx, HPy h)`, whose body is `return PyBytes_GET_SIZE(_h2py(h));`. -/
def Impl.Bytes_GET_SIZE {pf : Platform} (api : Env pf) (ctx : pf.HPyContext) (h : pf.HPy) :
    Call pf (CSsize pf) :=
  api.PyBytes_GET_SIZE (api._h2py h)

/-- Line 386, `char * Bytes_AsString(HPyContext ctx, HPy h)`, whose body is `return PyBytes_AsString(_h2py(h));`. -/
def Impl.Bytes_AsString {pf : Platform} (api : Env pf) (ctx : pf.HPyContext) (h : pf.HPy) :
    Call pf pf.CharPtr :=
  api.PyBytes_AsString (api._h2py h)

/-- Line 391, `char * Bytes_AS_STRING(HPyContext ctx, HPy h)`, whose body is `return PyBytes_AS_STRING(_h2py(h));`. -/
def Impl.Bytes_AS_STRING {pf : Platform} (api : Env pf) (ctx : pf.HPyContext) (h : pf.HPy) :
    Call pf pf.CharPtr :=
  api.PyBytes_AS_STRING (api._h2py h)

/-- Line 396, `HPy Bytes_FromString(HPyContext ctx, const char *v)`, whose body is `return _py2h(PyBytes_FromString(v));`. -/
def Impl.Bytes_FromString {pf : Platform} (api : Env pf) (ctx : pf.HPyContext) (v : pf.CharPtr) :
    Call pf pf.HPy :=
  api._py2h <$> api.PyBytes_FromString v

/-- Line 401, `HPy Bytes_FromStringAndSize(HPyContext ctx, const char *v, HPy_ssize_t len)`, whose body is `return _py2h(PyBytes_FromStringAndSize(v, len));`. -/
def Impl.Bytes_FromStringAndSize {pf : Platform} (api : Env pf) (ctx : pf.HPyContext) (v : pf.CharPtr) (len : CSsize pf) :
    Call pf pf.HPy :=
  api._py2h <$> api.PyBytes_FromStringAndSize v len

/-- Line 406, `HPy Unicode_FromString(HPyContext ctx, const char *utf8)`, whose body is `return _py2h(PyUnicode_FromString(utf8));`. -/
def Impl.Unicode_FromString {pf : Platform} (api : Env pf) (ctx : pf.HPyContext) (utf8 : pf.CharPtr) :
    Call pf pf.HPy :=
  api._py2h <$> api.PyUnicode_FromString utf8

/-- Line 411, `int Unicode_Check(HPyContext ctx, HPy h)`, whose body is `return PyUnicode_Check(_h2py(h));`. -/
def Impl.Unicode_Check {pf : Platform} (api : Env pf) (ctx : pf.HPyContext) (h : pf.HPy) :
    Call pf (CIntT pf) :=
  api.PyUnicode_Check (api._h2py h)

/-- Line 416, `HPy Unicode_AsUTF8String(HPyContext ctx, HPy h)`, whose body is `return _py2h(PyUnicode_AsUTF8String(_h2py(h)));`. -/
def Impl.Unicode_AsUTF8String {pf : Platform} (api : Env pf) (ctx : pf.HPyContext) (h : pf.HPy) :
    Call pf pf.HPy :=
  api._py2h <$> api.PyUnicode_AsUTF8String (api._h2py h)

/-- Line 421, `HPy Unicode_FromWideChar(HPyContext ctx, const wchar_t *w, HPy_ssize_t size)`, whose body is `return _py2h(PyUnicode_FromWideChar(w, size));`. -/
def Impl.Unicode_FromWideChar {pf : Platform} (api : Env pf) (ctx : pf.HPyContext) (w : pf.WCharPtr) (size : CSsize pf) :
    Call pf pf.HPy :=
  api._py2h <$> api.PyUnicode_FromWideChar w size

/-- Line 426, `int List_Check(HPyContext ctx, HPy h)`, whose body is `return PyList_Check(_h2py(h));`. -/
def Impl.List_Check {pf : Platform} (api : Env pf) (ctx : pf.HPyContext) (h : pf.HPy) :
    Call pf (CIntT pf) :=
  api.PyList_Check (api._h2py h)

/-- Line 431, `HPy List_New(HPyContext ctx, HPy_ssize_t len)`, whose body is `return _py2h(PyList_New(len));`. -/
def Impl.List_New {pf : Platform} (api : Env pf) (ctx : pf.HPyContext) (len : CSsize pf) :
    Call pf pf.HPy :=
  api._py2h <$> api.PyList_New len

/-- Line 436, `int List_Append(HPyContext ctx, HPy h_list, HPy h_item)`, whose body is `return PyList_Append(_h2py(h_list), _h2py(h_item));`. -/
def Impl.List_Append {pf : Platform} (api : Env pf) (ctx : pf.HPyContext) (h_list : pf.HPy) (h_item : pf.HPy) :
    Call pf (CIntT pf) :=
  api.PyList_Append (api._h2py h_list) (api._h2py h_item)

/-- Line 441, `int Dict_Check(HPyContext ctx, HPy h)`, whose body is `return PyDict_Check(_h2py(h));`. -/
def Impl.Dict_Check {pf : Platform} (api : Env pf) (ctx : pf.HPyContext) (h : pf.HPy) :
    Call pf (CIntT pf) :=
  api.PyDict_Check (api._h2py h)

/-- Line 446, `HPy Dict_New(HPyContext ctx)`, whose body is `return _py2h(PyDict_New());`. -/
def Impl.Dict_New {pf : Platform} (api : Env pf) (ctx : pf.HPyContext) :
    Call pf pf.HPy :=
  api._py2h <$> api.PyDict_New


/-! ## The table of the header

The signature of every function, the function itself and the native function it
calls, indexed by one enumeration, so that a statement can range over "every
function of the header". -/

/-- The C types that occur in the signatures of the header. -/
inductive CTy where
  | hpy | int | long | ulong | longLong | ulongLong | size | ssize | hash
  | double | charPtr | wcharPtr | void
  deriving DecidableEq, Repr

/-- The values of a C type, with `X` in the place of the object type: `X` is the
handle type on the side of the header and the object pointer type on the
native side. -/
def CTy.denote (pf : Platform) (X : Type) : CTy → Type
  | .hpy => X
  | .int => CIntT pf
  | .long => CLong pf
  | .ulong => CULong pf
  | .longLong => CLongLong pf
  | .ulongLong => CULongLong pf
  | .size => CSize pf
  | .ssize => CSsize pf
  | .hash => CHash pf
  | .double => pf.Double
  | .charPtr => pf.CharPtr
  | .wcharPtr => pf.WCharPtr
  | .void => Unit

/-- An argument tuple for a list of parameter types. -/
def Args (pf : Platform) (X : Type) : List CTy → Type
  | [] => Unit
  | t :: ts => CTy.denote pf X t × Args pf X ts

/-- The names of the functions of the header, in its order. -/
inductive Wrapper where
  | Long_FromLong
  | Long_FromUnsignedLong
  | Long_FromLongLong
  | Long_FromUnsignedLongLong
  | Long_FromSize_t
  | Long_FromSsize_t
  | Long_AsLong
  | Long_AsUnsignedLong
  | Long_AsUnsignedLongMask
  | Long_AsLongLong
  | Long_AsUnsignedLongLong
  | Long_AsUnsignedLongLongMask
  | Long_AsSize_t
  | Long_AsSsize_t
  | Float_FromDouble
  | Float_AsDouble
  | Length
  | Number_Check
  | Add
  | Subtract
  | Multiply
  | MatrixMultiply
  | FloorDivide
  | TrueDivide
  | Remainder
  | Divmod
  | Power
  | Negative
  | Positive
  | Absolute
  | Invert
  | Lshift
  | Rshift
  | And
  | Xor
  | Or
  | Index
  | Long
  | Float
  | InPlaceAdd
  | InPlaceSubtract
  | InPlaceMultiply
  | InPlaceMatrixMultiply
  | InPlaceFloorDivide
  | InPlaceTrueDivide
  | InPlaceRemainder
  | InPlacePower
  | InPlaceLshift
  | InPlaceRshift
  | InPlaceAnd
  | InPlaceXor
  | InPlaceOr
  | Err_SetString
  | Err_SetObject
  | Err_NoMemory
  | Err_Clear
  | IsTrue
  | GetAttr
  | GetAttr_s
  | HasAttr
  | HasAttr_s
  | SetAttr
  | SetAttr_s
  | GetItem
  | SetItem
  | Repr
  | Str
  | ASCII
  | Bytes
  | RichCompare
  | RichCompareBool
  | Hash
  | Bytes_Check
  | Bytes_Size
  | Bytes_GET_SIZE
  | Bytes_AsString
  | Bytes_AS_STRING
  | Bytes_FromString
  | Bytes_FromStringAndSize
  | Unicode_FromString
  | Unicode_Check
  | Unicode_AsUTF8String
  | Unicode_FromWideChar
  | List_Check
  | List_New
  | List_Append
  | Dict_Check
  | Dict_New
  deriving DecidableEq, Repr

/-- The parameter types of a function of the header, after the context. -/
def Wrapper.params : Wrapper → List CTy
  | .Long_FromLong => [.long]
  | .Long_FromUnsignedLong => [.ulong]
  | .Long_FromLongLong => [.longLong]
  | .Long_FromUnsignedLongLong => [.ulongLong]
  | .Long_FromSize_t => [.size]
  | .Long_FromSsize_t => [.ssize]
  | .Long_AsLong => [.hpy]
  | .Long_AsUnsignedLong => [.hpy]
  | .Long_AsUnsignedLongMask => [.hpy]
  | .Long_AsLongLong => [.hpy]
  | .Long_AsUnsignedLongLong => [.hpy]
  | .Long_AsUnsignedLongLongMask => [.hpy]
  | .Long_AsSize_t => [.hpy]
  | .Long_AsSsize_t => [.hpy]
  | .Float_FromDouble => [.double]
  | .Float_AsDouble => [.hpy]
  | .Length => [.hpy]
  | .Number_Check => [.hpy]
  | .Add => [.hpy, .hpy]
  | .Subtract => [.hpy, .hpy]
  | .Multiply => [.hpy, .hpy]
  | .MatrixMultiply => [.hpy, .hpy]
  | .FloorDivide => [.hpy, .hpy]
  | .TrueDivide => [.hpy, .hpy]
  | .Remainder => [.hpy, .hpy]
  | .Divmod => [.hpy, .hpy]
  | .Power => [.hpy, .hpy, .hpy]
  | .Negative => [.hpy]
  | .Positive => [.hpy]
  | .Absolute => [.hpy]
  | .Invert => [.hpy]
  | .Lshift => [.hpy, .hpy]
  | .Rshift => [.hpy, .hpy]
  | .And => [.hpy, .hpy]
  | .Xor => [.hpy, .hpy]
  | .Or => [.hpy, .hpy]
  | .Index => [.hpy]
  | .Long => [.hpy]
  | .Float => [.hpy]
  | .InPlaceAdd => [.hpy, .hpy]
  | .InPlaceSubtract => [.hpy, .hpy]
  | .InPlaceMultiply => [.hpy, .hpy]
  | .InPlaceMatrixMultiply => [.hpy, .hpy]
  | .InPlaceFloorDivide => [.hpy, .hpy]
  | .InPlaceTrueDivide => [.hpy, .hpy]
  | .InPlaceRemainder => [.hpy, .hpy]
  | .InPlacePower => [.hpy, .hpy, .hpy]
  | .InPlaceLshift => [.hpy, .hpy]
  | .InPlaceRshift => [.hpy, .hpy]
  | .InPlaceAnd => [.hpy, .hpy]
  | .InPlaceXor => [.hpy, .hpy]
  | .InPlaceOr => [.hpy, .hpy]
  | .Err_SetString => [.hpy, .charPtr]
  | .Err_SetObject => [.hpy, .hpy]
  | .Err_NoMemory => []
  | .Err_Clear => []
  | .IsTrue => [.hpy]
  | .GetAttr => [.hpy, .hpy]
  | .GetAttr_s => [.hpy, .charPtr]
  | .HasAttr => [.hpy, .hpy]
  | .HasAttr_s => [.hpy, .charPtr]
  | .SetAttr => [.hpy, .hpy, .hpy]
  | .SetAttr_s => [.hpy, .charPtr, .hpy]
  | .GetItem => [.hpy, .hpy]
  | .SetItem => [.hpy, .hpy, .hpy]
  | .Repr => [.hpy]
  | .Str => [.hpy]
  | .ASCII => [.hpy]
  | .Bytes => [.hpy]
  | .RichCompare => [.hpy, .hpy, .int]
  | .RichCompareBool => [.hpy, .hpy, .int]
  | .Hash => [.hpy]
  | .Bytes_Check => [.hpy]
  | .Bytes_Size => [.hpy]
  | .Bytes_GET_SIZE => [.hpy]
  | .Bytes_AsString => [.hpy]
  | .Bytes_AS_STRING => [.hpy]
  | .Bytes_FromString => [.charPtr]
  | .Bytes_FromStringAndSize => [.charPtr, .ssize]
  | .Unicode_FromString => [.charPtr]
  | .Unicode_Check => [.hpy]
  | .Unicode_AsUTF8String => [.hpy]
  | .Unicode_FromWideChar => [.wcharPtr, .ssize]
  | .List_Check => [.hpy]
  | .List_New => [.ssize]
  | .List_Append => [.hpy, .hpy]
  | .Dict_Check => [.hpy]
  | .Dict_New => []

/-- The return type of a function of the header. -/
def Wrapper.ret : Wrapper → CTy
  | .Long_FromLong => .hpy
  | .Long_FromUnsignedLong => .hpy
  | .Long_FromLongLong => .hpy
  | .Long_FromUnsignedLongLong => .hpy
  | .Long_FromSize_t => .hpy
  | .Long_FromSsize_t => .hpy
  | .Long_AsLong => .long
  | .Long_AsUnsignedLong => .ulong
  | .Long_AsUnsignedLongMask => .ulong
  | .Long_AsLongLong => .longLong
  | .Long_AsUnsignedLongLong => .ulongLong
  | .Long_AsUnsignedLongLongMask => .ulongLong
  | .Long_AsSize_t => .size
  | .Long_AsSsize_t => .ssize
  | .Float_FromDouble => .hpy
  | .Float_AsDouble => .double
  | .Length => .ssize
  | .Number_Check => .int
  | .Add => .hpy
  | .Subtract => .hpy
  | .Multiply => .hpy
  | .MatrixMultiply => .hpy
  | .FloorDivide => .hpy
  | .TrueDivide => .hpy
  | .Remainder => .hpy
  | .Divmod => .hpy
  | .Power => .hpy
  | .Negative => .hpy
  | .Positive => .hpy
  | .Absolute => .hpy
  | .Invert => .hpy
  | .Lshift => .hpy
  | .Rshift => .hpy
  | .And => .hpy
  | .Xor => .hpy
  | .Or => .hpy
  | .Index => .hpy
  | .Long => .hpy
  | .Float => .hpy
  | .InPlaceAdd => .hpy
  | .InPlaceSubtract => .hpy
  | .InPlaceMultiply => .hpy
  | .InPlaceMatrixMultiply => .hpy
  | .InPlaceFloorDivide => .hpy
  | .InPlaceTrueDivide => .hpy
  | .InPlaceRemainder => .hpy
  | .InPlacePower => .hpy
  | .InPlaceLshift => .hpy
  | .InPlaceRshift => .hpy
  | .InPlaceAnd => .hpy
  | .InPlaceXor => .hpy
  | .InPlaceOr => .hpy
  | .Err_SetString => .void
  | .Err_SetObject => .void
  | .Err_NoMemory => .hpy
  | .Err_Clear => .void
  | .IsTrue => .int
  | .GetAttr => .hpy
  | .GetAttr_s => .hpy
  | .HasAttr => .int
  | .HasAttr_s => .int
  | .SetAttr => .int
  | .SetAttr_s => .int
  | .GetItem => .hpy
  | .SetItem => .int
  | .Repr => .hpy
  | .Str => .hpy
  | .ASCII => .hpy
  | .Bytes => .hpy
  | .RichCompare => .hpy
  | .RichCompareBool => .int
  | .Hash => .hash
  | .Bytes_Check => .int
  | .Bytes_Size => .ssize
  | .Bytes_GET_SIZE => .ssize
  | .Bytes_AsString => .charPtr
  | .Bytes_AS_STRING => .charPtr
  | .Bytes_FromString => .hpy
  | .Bytes_FromStringAndSize => .hpy
  | .Unicode_FromString => .hpy
  | .Unicode_Check => .int
  | .Unicode_AsUTF8String => .hpy
  | .Unicode_FromWideChar => .hpy
  | .List_Check => .int
  | .List_New => .hpy
  | .List_Append => .int
  | .Dict_Check => .int
  | .Dict_New => .hpy

/-- The functions of the header, indexed by name: a call of `w` with the
arguments `args`. -/
def Wrapper.invoke {pf : Platform} (api : Env pf) : (w : Wrapper) → pf.HPyContext →
    Args pf pf.HPy w.params → Call pf (CTy.denote pf pf.HPy w.ret)
  | .Long_FromLong, ctx, (value, ()) => Impl.Long_FromLong api ctx value
  | .Long_FromUnsignedLong, ctx, (value, ()) => Impl.Long_FromUnsignedLong api ctx value
  | .Long_FromLongLong, ctx, (v, ()) => Impl.Long_FromLongLong api ctx v
  | .Long_FromUnsignedLongLong, ctx, (v, ()) => Impl.Long_FromUnsignedLongLong api ctx v
  | .Long_FromSize_t, ctx, (value, ()) => Impl.Long_FromSize_t api ctx value
  | .Long_FromSsize_t, ctx, (value, ()) => Impl.Long_FromSsize_t api ctx value
  | .Long_AsLong, ctx, (h, ()) => Impl.Long_AsLong api ctx h
  | .Long_AsUnsignedLong, ctx, (h, ()) => Impl.Long_AsUnsignedLong api ctx h
  | .Long_AsUnsignedLongMask, ctx, (h, ()) => Impl.Long_AsUnsignedLongMask api ctx h
  | .Long_AsLongLong, ctx, (h, ()) => Impl.Long_AsLongLong api ctx h
  | .Long_AsUnsignedLongLong, ctx, (h, ()) => Impl.Long_AsUnsignedLongLong api ctx h
  | .Long_AsUnsignedLongLongMask, ctx, (h, ()) => Impl.Long_AsUnsignedLongLongMask api ctx h
  | .Long_AsSize_t, ctx, (h, ()) => Impl.Long_AsSize_t api ctx h
  | .Long_AsSsize_t, ctx, (h, ()) => Impl.Long_AsSsize_t api ctx h
  | .Float_FromDouble, ctx, (v, ()) => Impl.Float_FromDouble api ctx v
  | .Float_AsDouble, ctx, (h, ()) => Impl.Float_AsDouble api ctx h
  | .Length, ctx, (h, ()) => Impl.Length api ctx h
  | .Number_Check, ctx, (h, ()) => Impl.Number_Check api ctx h
  | .Add, ctx, (h1, h2, ()) => Impl.Add api ctx h1 h2
  | .Subtract, ctx, (h1, h2, ()) => Impl.Subtract api ctx h1 h2
  | .Multiply, ctx, (h1, h2, ()) => Impl.Multiply api ctx h1 h2
  | .MatrixMultiply, ctx, (h1, h2, ()) => Impl.MatrixMultiply api ctx h1 h2
  | .FloorDivide, ctx, (h1, h2, ()) => Impl.FloorDivide api ctx h1 h2
  | .TrueDivide, ctx, (h1, h2, ()) => Impl.TrueDivide api ctx h1 h2
  | .Remainder, ctx, (h1, h2, ()) => Impl.Remainder api ctx h1 h2
  | .Divmod, ctx, (h1, h2, ()) => Impl.Divmod api ctx h1 h2
  | .Power, ctx, (h1, h2, h3, ()) => Impl.Power api ctx h1 h2 h3
  | .Negative, ctx, (h1, ()) => Impl.Negative api ctx h1
  | .Positive, ctx, (h1, ()) => Impl.Positive api ctx h1
  | .Absolute, ctx, (h1, ()) => Impl.Absolute api ctx h1
  | .Invert, ctx, (h1, ()) => Impl.Invert api ctx h1
  | .Lshift, ctx, (h1, h2, ()) => Impl.Lshift api ctx h1 h2
  | .Rshift, ctx, (h1, h2, ()) => Impl.Rshift api ctx h1 h2
  | .And, ctx, (h1, h2, ()) => Impl.And api ctx h1 h2
  | .Xor, ctx, (h1, h2, ()) => Impl.Xor api ctx h1 h2
  | .Or, ctx, (h1, h2, ()) => Impl.Or api ctx h1 h2
  | .Index, ctx, (h1, ()) => Impl.Index api ctx h1
  | .Long, ctx, (h1, ()) => Impl.Long api ctx h1
  | .Float, ctx, (h1, ()) => Impl.Float api ctx h1
  | .InPlaceAdd, ctx, (h1, h2, ()) => Impl.InPlaceAdd api ctx h1 h2
  | .InPlaceSubtract, ctx, (h1, h2, ()) => Impl.InPlaceSubtract api ctx h1 h2
  | .InPlaceMultiply, ctx, (h1, h2, ()) => Impl.InPlaceMultiply api ctx h1 h2
  | .InPlaceMatrixMultiply, ctx, (h1, h2, ()) => Impl.InPlaceMatrixMultiply api ctx h1 h2
  | .InPlaceFloorDivide, ctx, (h1, h2, ()) => Impl.InPlaceFloorDivide api ctx h1 h2
  | .InPlaceTrueDivide, ctx, (h1, h2, ()) => Impl.InPlaceTrueDivide api ctx h1 h2
  | .InPlaceRemainder, ctx, (h1, h2, ()) => Impl.InPlaceRemainder api ctx h1 h2
  | .InPlacePower, ctx, (h1, h2, h3, ()) => Impl.InPlacePower api ctx h1 h2 h3
  | .InPlaceLshift, ctx, (h1, h2, ()) => Impl.InPlaceLshift api ctx h1 h2
  | .InPlaceRshift, ctx, (h1, h2, ()) => Impl.InPlaceRshift api ctx h1 h2
  | .InPlaceAnd, ctx, (h1, h2, ()) => Impl.InPlaceAnd api ctx h1 h2
  | .InPlaceXor, ctx, (h1, h2, ()) => Impl.InPlaceXor api ctx h1 h2
  | .InPlaceOr, ctx, (h1, h2, ()) => Impl.InPlaceOr api ctx h1 h2
  | .Err_SetString, ctx, (h_type, message, ()) => Impl.Err_SetString api ctx h_type message
  | .Err_SetObject, ctx, (h_type, h_value, ()) => Impl.Err_SetObject api ctx h_type h_value
  | .Err_NoMemory, ctx, () => Impl.Err_NoMemory api ctx
  | .Err_Clear, ctx, () => Impl.Err_Clear api ctx
  | .IsTrue, ctx, (h, ()) => Impl.IsTrue api ctx h
  | .GetAttr, ctx, (obj, name, ()) => Impl.GetAttr api ctx obj name
  | .GetAttr_s, ctx, (obj, name, ()) => Impl.GetAttr_s api ctx obj name
  | .HasAttr, ctx, (obj, name, ()) => Impl.HasAttr api ctx obj name
  | .HasAttr_s, ctx, (obj, name, ()) => Impl.HasAttr_s api ctx obj name
  | .SetAttr, ctx, (obj, name, value, ()) => Impl.SetAttr api ctx obj name value
  | .SetAttr_s, ctx, (obj, name, value, ()) => Impl.SetAttr_s api ctx obj name value
  | .GetItem, ctx, (obj, key, ()) => Impl.GetItem api ctx obj key
  | .SetItem, ctx, (obj, key, value, ()) => Impl.SetItem api ctx obj key value
  | .Repr, ctx, (obj, ()) => Impl.Repr api ctx obj
  | .Str, ctx, (obj, ()) => Impl.Str api ctx obj
  | .ASCII, ctx, (obj, ()) => Impl.ASCII api ctx obj
  | .Bytes, ctx, (obj, ()) => Impl.Bytes api ctx obj
  | .RichCompare, ctx, (v, w, op, ()) => Impl.RichCompare api ctx v w op
  | .RichCompareBool, ctx, (v, w, op, ()) => Impl.RichCompareBool api ctx v w op
  | .Hash, ctx, (obj, ()) => Impl.Hash api ctx obj
  | .Bytes_Check, ctx, (h, ()) => Impl.Bytes_Check api ctx h
  | .Bytes_Size, ctx, (h, ()) => Impl.Bytes_Size api ctx h
  | .Bytes_GET_SIZE, ctx, (h, ()) => Impl.Bytes_GET_SIZE api ctx h
  | .Bytes_AsString, ctx, (h, ()) => Impl.Bytes_AsString api ctx h
  | .Bytes_AS_STRING, ctx, (h, ()) => Impl.Bytes_AS_STRING api ctx h
  | .Bytes_FromString, ctx, (v, ()) => Impl.Bytes_FromString api ctx v
  | .Bytes_FromStringAndSize, ctx, (v, len, ()) => Impl.Bytes_FromStringAndSize api ctx v len
  | .Unicode_FromString, ctx, (utf8, ()) => Impl.Unicode_FromString api ctx utf8
  | .Unicode_Check, ctx, (h, ()) => Impl.Unicode_Check api ctx h
  | .Unicode_AsUTF8String, ctx, (h, ()) => Impl.Unicode_AsUTF8String api ctx h
  | .Unicode_FromWideChar, ctx, (w, size, ()) => Impl.Unicode_FromWideChar api ctx w size
  | .List_Check, ctx, (h, ()) => Impl.List_Check api ctx h
  | .List_New, ctx, (len, ()) => Impl.List_New api ctx len
  | .List_Append, ctx, (h_list, h_item, ()) => Impl.List_Append api ctx h_list h_item
  | .Dict_Check, ctx, (h, ()) => Impl.Dict_Check api ctx h
  | .Dict_New, ctx, () => Impl.Dict_New api ctx

/-- The native function each function of the header calls, with its arguments
as a tuple. -/
def Wrapper.native {pf : Platform} (api : Env pf) : (w : Wrapper) →
    Args pf pf.PyObject w.params → Call pf (CTy.denote pf pf.PyObject w.ret)
  | .Long_FromLong, (value, ()) => api.PyLong_FromLong value
  | .Long_FromUnsignedLong, (value, ()) => api.PyLong_FromUnsignedLong value
  | .Long_FromLongLong, (v, ()) => api.PyLong_FromLongLong v
  | .Long_FromUnsignedLongLong, (v, ()) => api.PyLong_FromUnsignedLongLong v
  | .Long_FromSize_t, (value, ()) => api.PyLong_FromSize_t value
  | .Long_FromSsize_t, (value, ()) => api.PyLong_FromSsize_t value
  | .Long_AsLong, (h, ()) => api.PyLong_AsLong h
  | .Long_AsUnsignedLong, (h, ()) => api.PyLong_AsUnsignedLong h
  | .Long_AsUnsignedLongMask, (h, ()) => api.PyLong_AsUnsignedLongMask h
  | .Long_AsLongLong, (h, ()) => api.PyLong_AsLongLong h
  | .Long_AsUnsignedLongLong, (h, ()) => api.PyLong_AsUnsignedLongLong h
  | .Long_AsUnsignedLongLongMask, (h, ()) => api.PyLong_AsUnsignedLongLongMask h
  | .Long_AsSize_t, (h, ()) => api.PyLong_AsSize_t h
  | .Long_AsSsize_t, (h, ()) => api.PyLong_AsSsize_t h
  | .Float_FromDouble, (v, ()) => api.PyFloat_FromDouble v
  | .Float_AsDouble, (h, ()) => api.PyFloat_AsDouble h
  | .Length, (h, ()) => api.PyObject_Length h
  | .Number_Check, (h, ()) => api.PyNumber_Check h
  | .Add, (h1, h2, ()) => api.PyNumber_Add h1 h2
  | .Subtract, (h1, h2, ()) => api.PyNumber_Subtract h1 h2
  | .Multiply, (h1, h2, ()) => api.PyNumber_Multiply h1 h2
  | .MatrixMultiply, (h1, h2, ()) => api.PyNumber_MatrixMultiply h1 h2
  | .FloorDivide, (h1, h2, ()) => api.PyNumber_FloorDivide h1 h2
  | .TrueDivide, (h1, h2, ()) => api.PyNumber_TrueDivide h1 h2
  | .Remainder, (h1, h2, ()) => api.PyNumber_Remainder h1 h2
  | .Divmod, (h1, h2, ()) => api.PyNumber_Divmod h1 h2
  | .Power, (h1, h2, h3, ()) => api.PyNumber_Power h1 h2 h3
  | .Negative, (h1, ()) => api.PyNumber_Negative h1
  | .Positive, (h1, ()) => api.PyNumber_Positive h1
  | .Absolute, (h1, ()) => api.PyNumber_Absolute h1
  | .Invert, (h1, ()) => api.PyNumber_Invert h1
  | .Lshift, (h1, h2, ()) => api.PyNumber_Lshift h1 h2
  | .Rshift, (h1, h2, ()) => api.PyNumber_Rshift h1 h2
  | .And, (h1, h2, ()) => api.PyNumber_And h1 h2
  | .Xor, (h1, h2, ()) => api.PyNumber_Xor h1 h2
  | .Or, (h1, h2, ()) => api.PyNumber_Or h1 h2
  | .Index, (h1, ()) => api.PyNumber_Index h1
  | .Long, (h1, ()) => api.PyNumber_Long h1
  | .Float, (h1, ()) => api.PyNumber_Float h1
  | .InPlaceAdd, (h1, h2, ()) => api.PyNumber_InPlaceAdd h1 h2
  | .InPlaceSubtract, (h1, h2, ()) => api.PyNumber_InPlaceSubtract h1 h2
  | .InPlaceMultiply, (h1, h2, ()) => api.PyNumber_InPlaceMultiply h1 h2
  | .InPlaceMatrixMultiply, (h1, h2, ()) => api.PyNumber_InPlaceMatrixMultiply h1 h2
  | .InPlaceFloorDivide, (h1, h2, ()) => api.PyNumber_InPlaceFloorDivide h1 h2
  | .InPlaceTrueDivide, (h1, h2, ()) => api.PyNumber_InPlaceTrueDivide h1 h2
  | .InPlaceRemainder, (h1, h2, ()) => api.PyNumber_InPlaceRemainder h1 h2
  | .InPlacePower, (h1, h2, h3, ()) => api.PyNumber_InPlacePower h1 h2 h3
  | .InPlaceLshift, (h1, h2, ()) => api.PyNumber_InPlaceLshift h1 h2
  | .InPlaceRshift, (h1, h2, ()) => api.PyNumber_InPlaceRshift h1 h2
  | .InPlaceAnd, (h1, h2, ()) => api.PyNumber_InPlaceAnd h1 h2
  | .InPlaceXor, (h1, h2, ()) => api.PyNumber_InPlaceXor h1 h2
  | .InPlaceOr, (h1, h2, ()) => api.PyNumber_InPlaceOr h1 h2
  | .Err_SetString, (h_type, message, ()) => api.PyErr_SetString h_type message
  | .Err_SetObject, (h_type, h_value, ()) => api.PyErr_SetObject h_type h_value
  | .Err_NoMemory, () => api.PyErr_NoMemory
  | .Err_Clear, () => api.PyErr_Clear
  | .IsTrue, (h, ()) => api.PyObject_IsTrue h
  | .GetAttr, (obj, name, ()) => api.PyObject_GetAttr obj name
  | .GetAttr_s, (obj, name, ()) => api.PyObject_GetAttrString obj name
  | .HasAttr, (obj, name, ()) => api.PyObject_HasAttr obj name
  | .HasAttr_s, (obj, name, ()) => api.PyObject_HasAttrString obj name
  | .SetAttr, (obj, name, value, ()) => api.PyObject_SetAttr obj name value
  | .SetAttr_s, (obj, name, value, ()) => api.PyObject_SetAttrString obj name value
  | .GetItem, (obj, key, ()) => api.PyObject_GetItem obj key
  | .SetItem, (obj, key, value, ()) => api.PyObject_SetItem obj key value
  | .Repr, (obj, ()) => api.PyObject_Repr obj
  | .Str, (obj, ()) => api.PyObject_Str obj
  | .ASCII, (obj, ()) => api.PyObject_ASCII obj
  | .Bytes, (obj, ()) => api.PyObject_Bytes obj
  | .RichCompare, (v, w, op, ()) => api.PyObject_RichCompare v w op
  | .RichCompareBool, (v, w, op, ()) => api.PyObject_RichCompareBool v w op
  | .Hash, (obj, ()) => api.PyObject_Hash obj
  | .Bytes_Check, (h, ()) => api.PyBytes_Check h
  | .Bytes_Size, (h, ()) => api.PyBytes_Size h
  | .Bytes_GET_SIZE, (h, ()) => api.PyBytes_GET_SIZE h
  | .Bytes_AsString, (h, ()) => api.PyBytes_AsString h
  | .Bytes_AS_STRING, (h, ()) => api.PyBytes_AS_STRING h
  | .Bytes_FromString, (v, ()) => api.PyBytes_FromString v
  | .Bytes_FromStringAndSize, (v, len, ()) => api.PyBytes_FromStringAndSize v len
  | .Unicode_FromString, (utf8, ()) => api.PyUnicode_FromString utf8
  | .Unicode_Check, (h, ()) => api.PyUnicode_Check h
  | .Unicode_AsUTF8String, (h, ()) => api.PyUnicode_AsUTF8String h
  | .Unicode_FromWideChar, (w, size, ()) => api.PyUnicode_FromWideChar w size
  | .List_Check, (h, ()) => api.PyList_Check h
  | .List_New, (len, ()) => api.PyList_New len
  | .List_Append, (h_list, h_item, ()) => api.PyList_Append h_list h_item
  | .Dict_Check, (h, ()) => api.PyDict_Check h
  | .Dict_New, () => api.PyDict_New

/-! ## The translation step, as the specification words it

"Convert an opaque handle to a native object pointer, invoke the corresponding
native API function, convert the native result back into an opaque handle, and
return it", read for an arbitrary signature: every handle argument is converted
with `_h2py`, every other argument is passed as it is, and the result is
converted with `_py2h` when it is an object. -/

/-- One argument on its way in: `_h2py` on a handle, nothing on any other type. -/
def convArg {pf : Platform} (api : Env pf) : (t : CTy) →
    CTy.denote pf pf.HPy t → CTy.denote pf pf.PyObject t
  | .hpy, h => api._h2py h
  | .int, x => x
  | .long, x => x
  | .ulong, x => x
  | .longLong, x => x
  | .ulongLong, x => x
  | .size, x => x
  | .ssize, x => x
  | .hash, x => x
  | .double, x => x
  | .charPtr, x => x
  | .wcharPtr, x => x
  | .void, x => x

/-- The argument tuple on its way in, position by position. -/
def convArgs {pf : Platform} (api : Env pf) : (ts : List CTy) →
    Args pf pf.HPy ts → Args pf pf.PyObject ts
  | [], _ => ()
  | t :: ts, (x, xs) => (convArg api t x, convArgs api ts xs)

/-- The result on its way out: `_py2h` on an object, nothing on any other type. -/
def convRet {pf : Platform} (api : Env pf) : (t : CTy) →
    CTy.denote pf pf.PyObject t → CTy.denote pf pf.HPy t
  | .hpy, p => api._py2h p
  | .int, x => x
  | .long, x => x
  | .ulong, x => x
  | .longLong, x => x
  | .ulongLong, x => x
  | .size, x => x
  | .ssize, x => x
  | .hash, x => x
  | .double, x => x
  | .charPtr, x => x
  | .wcharPtr, x => x
  | .void, x => x

/-- The translation step of the specification for the function `w`: convert the
arguments, call the native function of `w` once, convert the result. -/
def forward {pf : Platform} (api : Env pf) (w : Wrapper)
    (args : Args pf pf.HPy w.params) : Call pf (CTy.denote pf pf.HPy w.ret) :=
  convRet api w.ret <$> w.native api (convArgs api w.params args)

/-! ## A symbolic environment

A concrete environment on which every function of the header can be run: an
object is the term that names how it was obtained, each native function
records its call in the state, and the error indicator of the interpreter is
part of the state.  It shows, for a given call, which conversions were applied
to which argument and in which position each argument reached the native
function. -/

/-- Terms over handles, conversions, integers and native calls.  A native call
is named by the function of the header that makes it. -/
inductive Probe where
  | handle (id : Nat)
  | h2py (h : Probe)
  | py2h (p : Probe)
  | int (v : Int)
  | call0 (f : Wrapper)
  | call1 (f : Wrapper) (a : Probe)
  | call2 (f : Wrapper) (a b : Probe)
  | call3 (f : Wrapper) (a b c : Probe)
  deriving DecidableEq, Repr

/-- State of the symbolic interpreter: the native calls made so far, oldest
first, and the error indicator (the call that raised, when one is set). -/
structure ProbeState where
  calls : List Probe
  err : Option Probe
  deriving DecidableEq, Repr

/-- The platform of the symbolic environment: pointers are addresses, a double
is its bit pattern, and the integer widths are those of an LP64 platform. -/
@[reducible] def probePlatform : Platform where
  State := ProbeState
  HPy := Probe
  PyObject := Probe
  HPyContext := Nat
  Double := Int
  CharPtr := Nat
  WCharPtr := Nat
  intBits := 32
  longBits := 64
  longLongBits := 64
  sizeBits := 64

/-- The integer a symbolic native call yields: the integer its first argument
was built from when that argument is an object built from an integer, and the
error value `-1` otherwise. -/
def Probe.intResult : Probe → Int
  | .call1 _ (.call1 _ (.int v)) => v
  | _ => -1

/-- A native call that returns an object: the call is recorded and the object
is the term of the call. -/
def probeObj (t : Probe) : StateM ProbeState Probe :=
  fun s => (t, { s with calls := s.calls ++ [t] })

/-- A native call that returns a C integer. -/
def probeInt {signed : Bool} {bits : Nat} (t : Probe) : StateM ProbeState (CInt signed bits) :=
  fun s => (CInt.ofInt t.intResult, { s with calls := s.calls ++ [t] })

/-- A native call that returns a double. -/
def probeDouble (t : Probe) : StateM ProbeState Int :=
  fun s => (t.intResult, { s with calls := s.calls ++ [t] })

/-- A native call that returns a character pointer. -/
def probePtr (t : Probe) : StateM ProbeState Nat :=
  fun s => (t.intResult.toNat, { s with calls := s.calls ++ [t] })

/-- A native call that sets the error indicator and returns nothing. -/
def probeRaise (t : Probe) : StateM ProbeState Unit :=
  fun s => ((), { calls := s.calls ++ [t], err := some t })

/-- A native call that sets the error indicator and returns an object. -/
def probeRaiseObj (t : Probe) : StateM ProbeState Probe :=
  fun s => (t, { calls := s.calls ++ [t], err := some t })

/-- A native call that clears the error indicator. -/
def probeClear (t : Probe) : StateM ProbeState Unit :=
  fun s => ((), { calls := s.calls ++ [t], err := none })

/-- The symbolic environment.  A handle made by `_py2h` converts back to the
object it was made from; any other handle converts to a fresh term. -/
def probeEnv : Env probePlatform where
  _h2py := fun h => match h with
    | .py2h p => p
    | other => .h2py other
  _py2h := fun p => .py2h p
  PyLong_FromLong := fun value => probeObj (.call1 .Long_FromLong (.int value.val))
  PyLong_FromUnsignedLong := fun value => probeObj (.call1 .Long_FromUnsignedLong (.int value.val))
  PyLong_FromLongLong := fun v => probeObj (.call1 .Long_FromLongLong (.int v.val))
  PyLong_FromUnsignedLongLong := fun v => probeObj (.call1 .Long_FromUnsignedLongLong (.int v.val))
  PyLong_FromSize_t := fun value => probeObj (.call1 .Long_FromSize_t (.int value.val))
  PyLong_FromSsize_t := fun value => probeObj (.call1 .Long_FromSsize_t (.int value.val))
  PyLong_AsLong := fun h => probeInt (.call1 .Long_AsLong h)
  PyLong_AsUnsignedLong := fun h => probeInt (.call1 .Long_AsUnsignedLong h)
  PyLong_AsUnsignedLongMask := fun h => probeInt (.call1 .Long_AsUnsignedLongMask h)
  PyLong_AsLongLong := fun h => probeInt (.call1 .Long_AsLongLong h)
  PyLong_AsUnsignedLongLong := fun h => probeInt (.call1 .Long_AsUnsignedLongLong h)
  PyLong_AsUnsignedLongLongMask := fun h => probeInt (.call1 .Long_AsUnsignedLongLongMask h)
  PyLong_AsSize_t := fun h => probeInt (.call1 .Long_AsSize_t h)
  PyLong_AsSsize_t := fun h => probeInt (.call1 .Long_AsSsize_t h)
  PyFloat_FromDouble := fun v => probeObj (.call1 .Float_FromDouble (.int v))
  PyFloat_AsDouble := fun h => probeDouble (.call1 .Float_AsDouble h)
  PyObject_Length := fun h => probeInt (.call1 .Length h)
  PyNumber_Check := fun h => probeInt (.call1 .Number_Check h)
  PyNumber_Add := fun h1 h2 => probeObj (.call2 .Add h1 h2)
  PyNumber_Subtract := fun h1 h2 => probeObj (.call2 .Subtract h1 h2)
  PyNumber_Multiply := fun h1 h2 => probeObj (.call2 .Multiply h1 h2)
  PyNumber_MatrixMultiply := fun h1 h2 => probeObj (.call2 .MatrixMultiply h1 h2)
  PyNumber_FloorDivide := fun h1 h2 => probeObj (.call2 .FloorDivide h1 h2)
  PyNumber_TrueDivide := fun h1 h2 => probeObj (.call2 .TrueDivide h1 h2)
  PyNumber_Remainder := fun h1 h2 => probeObj (.call2 .Remainder h1 h2)
  PyNumber_Divmod := fun h1 h2 => probeObj (.call2 .Divmod h1 h2)
  PyNumber_Power := fun h1 h2 h3 => probeObj (.call3 .Power h1 h2 h3)
  PyNumber_Negative := fun h1 => probeObj (.call1 .Negative h1)
  PyNumber_Positive := fun h1 => probeObj (.call1 .Positive h1)
  PyNumber_Absolute := fun h1 => probeObj (.call1 .Absolute h1)
  PyNumber_Invert := fun h1 => probeObj (.call1 .Invert h1)
  PyNumber_Lshift := fun h1 h2 => probeObj (.call2 .Lshift h1 h2)
  PyNumber_Rshift := fun h1 h2 => probeObj (.call2 .Rshift h1 h2)
  PyNumber_And := fun h1 h2 => probeObj (.call2 .And h1 h2)
  PyNumber_Xor := fun h1 h2 => probeObj (.call2 .Xor h1 h2)
  PyNumber_Or := fun h1 h2 => probeObj (.call2 .Or h1 h2)
  PyNumber_Index := fun h1 => probeObj (.call1 .Index h1)
  PyNumber_Long := fun h1 => probeObj (.call1 .Long h1)
  PyNumber_Float := fun h1 => probeObj (.call1 .Float h1)
  PyNumber_InPlaceAdd := fun h1 h2 => probeObj (.call2 .InPlaceAdd h1 h2)
  PyNumber_InPlaceSubtract := fun h1 h2 => probeObj (.call2 .InPlaceSubtract h1 h2)
  PyNumber_InPlaceMultiply := fun h1 h2 => probeObj (.call2 .InPlaceMultiply h1 h2)
  PyNumber_InPlaceMatrixMultiply := fun h1 h2 => probeObj (.call2 .InPlaceMatrixMultiply h1 h2)
  PyNumber_InPlaceFloorDivide := fun h1 h2 => probeObj (.call2 .InPlaceFloorDivide h1 h2)
  PyNumber_InPlaceTrueDivide := fun h1 h2 => probeObj (.call2 .InPlaceTrueDivide h1 h2)
  PyNumber_InPlaceRemainder := fun h1 h2 => probeObj (.call2 .InPlaceRemainder h1 h2)
  PyNumber_InPlacePower := fun h1 h2 h3 => probeObj (.call3 .InPlacePower h1 h2 h3)
  PyNumber_InPlaceLshift := fun h1 h2 => probeObj (.call2 .InPlaceLshift h1 h2)
  PyNumber_InPlaceRshift := fun h1 h2 => probeObj (.call2 .InPlaceRshift h1 h2)
  PyNumber_InPlaceAnd := fun h1 h2 => probeObj (.call2 .InPlaceAnd h1 h2)
  PyNumber_InPlaceXor := fun h1 h2 => probeObj (.call2 .InPlaceXor h1 h2)
  PyNumber_InPlaceOr := fun h1 h2 => probeObj (.call2 .InPlaceOr h1 h2)
  PyErr_SetString := fun h_type message => probeRaise (.call2 .Err_SetString h_type (.int (Int.ofNat message)))
  PyErr_SetObject := fun h_type h_value => probeRaise (.call2 .Err_SetObject h_type h_value)
  PyErr_NoMemory := probeRaiseObj (.call0 .Err_NoMemory)
  PyErr_Clear := probeClear (.call0 .Err_Clear)
  PyObject_IsTrue := fun h => probeInt (.call1 .IsTrue h)
  PyObject_GetAttr := fun obj name => probeObj (.call2 .GetAttr obj name)
  PyObject_GetAttrString := fun obj name => probeObj (.call2 .GetAttr_s obj (.int (Int.ofNat name)))
  PyObject_HasAttr := fun obj name => probeInt (.call2 .HasAttr obj name)
  PyObject_HasAttrString := fun obj name => probeInt (.call2 .HasAttr_s obj (.int (Int.ofNat name)))
  PyObject_SetAttr := fun obj name value => probeInt (.call3 .SetAttr obj name value)
  PyObject_SetAttrString := fun obj name value => probeInt (.call3 .SetAttr_s obj (.int (Int.ofNat name)) value)
  PyObject_GetItem := fun obj key => probeObj (.call2 .GetItem obj key)
  PyObject_SetItem := fun obj key value => probeInt (.call3 .SetItem obj key value)
  PyObject_Repr := fun obj => probeObj (.call1 .Repr obj)
  PyObject_Str := fun obj => probeObj (.call1 .Str obj)
  PyObject_ASCII := fun obj => probeObj (.call1 .ASCII obj)
  PyObject_Bytes := fun obj => probeObj (.call1 .Bytes obj)
  PyObject_RichCompare := fun v w op => probeObj (.call3 .RichCompare v w (.int op.val))
  PyObject_RichCompareBool := fun v w op => probeInt (.call3 .RichCompareBool v w (.int op.val))
  PyObject_Hash := fun obj => probeInt (.call1 .Hash obj)
  PyBytes_Check := fun h => probeInt (.call1 .Bytes_Check h)
  PyBytes_Size := fun h => probeInt (.call1 .Bytes_Size h)
  PyBytes_GET_SIZE := fun h => probeInt (.call1 .Bytes_GET_SIZE h)
  PyBytes_AsString := fun h => probePtr (.call1 .Bytes_AsString h)
  PyBytes_AS_STRING := fun h => probePtr (.call1 .Bytes_AS_STRING h)
  PyBytes_FromString := fun v => probeObj (.call1 .Bytes_FromString (.int (Int.ofNat v)))
  PyBytes_FromStringAndSize := fun v len => probeObj (.call2 .Bytes_FromStringAndSize (.int (Int.ofNat v)) (.int len.val))
  PyUnicode_FromString := fun utf8 => probeObj (.call1 .Unicode_FromString (.int (Int.ofNat utf8)))
  PyUnicode_Check := fun h => probeInt (.call1 .Unicode_Check h)
  PyUnicode_AsUTF8String := fun h => probeObj (.call1 .Unicode_AsUTF8String h)
  PyUnicode_FromWideChar := fun w size => probeObj (.call2 .Unicode_FromWideChar (.int (Int.ofNat w)) (.int size.val))
  PyList_Check := fun h => probeInt (.call1 .List_Check h)
  PyList_New := fun len => probeObj (.call1 .List_New (.int len.val))
  PyList_Append := fun h_list h_item => probeInt (.call2 .List_Append h_list h_item)
  PyDict_Check := fun h => probeInt (.call1 .Dict_Check h)
  PyDict_New := probeObj (.call0 .Dict_New)

/-- The initial state of the symbolic interpreter. -/
def probeInit : ProbeState := { calls := [], err := none }

/-- A context of the symbolic platform. -/
def probeCtx : probePlatform.HPyContext := (0 : Nat)

/-- Number of `_h2py` conversions a term carries. -/
def Probe.countH2py : Probe → Nat
  | .handle _ => 0
  | .h2py h => h.countH2py + 1
  | .py2h p => p.countH2py
  | .int _ => 0
  | .call0 _ => 0
  | .call1 _ a => a.countH2py
  | .call2 _ a b => a.countH2py + b.countH2py
  | .call3 _ a b c => a.countH2py + b.countH2py + c.countH2py

/-- Number of `_py2h` conversions at the head of a term. -/
def Probe.countPy2h : Probe → Nat
  | .py2h p => p.countPy2h + 1
  | _ => 0

/-! ## Families of functions the claims range over -/

/-- The two-operand number functions of lines 101-139 and 166-189. -/
inductive BinOp where
  | Add | Subtract | Multiply | MatrixMultiply | FloorDivide | TrueDivide | Remainder | Divmod
  | Lshift | Rshift | And | Xor | Or
  deriving DecidableEq, Repr

/-- The function of the header for a two-operand number operation. -/
def BinOp.wrapper {pf : Platform} (api : Env pf) :
    BinOp → pf.HPyContext → pf.HPy → pf.HPy → Call pf pf.HPy
  | .Add => Impl.Add api
  | .Subtract => Impl.Subtract api
  | .Multiply => Impl.Multiply api
  | .MatrixMultiply => Impl.MatrixMultiply api
  | .FloorDivide => Impl.FloorDivide api
  | .TrueDivide => Impl.TrueDivide api
  | .Remainder => Impl.Remainder api
  | .Divmod => Impl.Divmod api
  | .Lshift => Impl.Lshift api
  | .Rshift => Impl.Rshift api
  | .And => Impl.And api
  | .Xor => Impl.Xor api
  | .Or => Impl.Or api

/-- The native function `PyNumber_Op` of the same name. -/
def BinOp.native {pf : Platform} (api : Env pf) :
    BinOp → pf.PyObject → pf.PyObject → Call pf pf.PyObject
  | .Add => api.PyNumber_Add
  | .Subtract => api.PyNumber_Subtract
  | .Multiply => api.PyNumber_Multiply
  | .MatrixMultiply => api.PyNumber_MatrixMultiply
  | .FloorDivide => api.PyNumber_FloorDivide
  | .TrueDivide => api.PyNumber_TrueDivide
  | .Remainder => api.PyNumber_Remainder
  | .Divmod => api.PyNumber_Divmod
  | .Lshift => api.PyNumber_Lshift
  | .Rshift => api.PyNumber_Rshift
  | .And => api.PyNumber_And
  | .Xor => api.PyNumber_Xor
  | .Or => api.PyNumber_Or

/-- The two-operand in-place number functions of lines 206-269. -/
inductive InPlaceOp where
  | Add | Subtract | Multiply | MatrixMultiply | FloorDivide | TrueDivide | Remainder
  | Lshift | Rshift | And | Xor | Or
  deriving DecidableEq, Repr

/-- The function `InPlaceOp` of the header. -/
def InPlaceOp.wrapper {pf : Platform} (api : Env pf) :
    InPlaceOp → pf.HPyContext → pf.HPy → pf.HPy → Call pf pf.HPy
  | .Add => Impl.InPlaceAdd api
  | .Subtract => Impl.InPlaceSubtract api
  | .Multiply => Impl.InPlaceMultiply api
  | .MatrixMultiply => Impl.InPlaceMatrixMultiply api
  | .FloorDivide => Impl.InPlaceFloorDivide api
  | .TrueDivide => Impl.InPlaceTrueDivide api
  | .Remainder => Impl.InPlaceRemainder api
  | .Lshift => Impl.InPlaceLshift api
  | .Rshift => Impl.InPlaceRshift api
  | .And => Impl.InPlaceAnd api
  | .Xor => Impl.InPlaceXor api
  | .Or => Impl.InPlaceOr api

/-- The native function `PyNumber_InPlaceOp` of the same name. -/
def InPlaceOp.native {pf : Platform} (api : Env pf) :
    InPlaceOp → pf.PyObject → pf.PyObject → Call pf pf.PyObject
  | .Add => api.PyNumber_InPlaceAdd
  | .Subtract => api.PyNumber_InPlaceSubtract
  | .Multiply => api.PyNumber_InPlaceMultiply
  | .MatrixMultiply => api.PyNumber_InPlaceMatrixMultiply
  | .FloorDivide => api.PyNumber_InPlaceFloorDivide
  | .TrueDivide => api.PyNumber_InPlaceTrueDivide
  | .Remainder => api.PyNumber_InPlaceRemainder
  | .Lshift => api.PyNumber_InPlaceLshift
  | .Rshift => api.PyNumber_InPlaceRshift
  | .And => api.PyNumber_InPlaceAnd
  | .Xor => api.PyNumber_InPlaceXor
  | .Or => api.PyNumber_InPlaceOr

/-- The plain native function with the name of an in-place operation, the one
an in-place function must not call. -/
def InPlaceOp.plainNative {pf : Platform} (api : Env pf) :
    InPlaceOp → pf.PyObject → pf.PyObject → Call pf pf.PyObject
  | .Add => api.PyNumber_Add
  | .Subtract => api.PyNumber_Subtract
  | .Multiply => api.PyNumber_Multiply
  | .MatrixMultiply => api.PyNumber_MatrixMultiply
  | .FloorDivide => api.PyNumber_FloorDivide
  | .TrueDivide => api.PyNumber_TrueDivide
  | .Remainder => api.PyNumber_Remainder
  | .Lshift => api.PyNumber_Lshift
  | .Rshift => api.PyNumber_Rshift
  | .And => api.PyNumber_And
  | .Xor => api.PyNumber_Xor
  | .Or => api.PyNumber_Or

/-- A call of one of the three functions of the header that return nothing. -/
inductive ErrCall (pf : Platform) where
  | setString (h_type : pf.HPy) (message : pf.CharPtr)
  | setObject (h_type h_value : pf.HPy)
  | clear

/-- The call made through the header. -/
def ErrCall.wrapper {pf : Platform} (api : Env pf) (ctx : pf.HPyContext) :
    ErrCall pf → Call pf Unit
  | .setString h_type message => Impl.Err_SetString api ctx h_type message
  | .setObject h_type h_value => Impl.Err_SetObject api ctx h_type h_value
  | .clear => Impl.Err_Clear api ctx

/-- The native call the claim names for it. -/
def ErrCall.native {pf : Platform} (api : Env pf) : ErrCall pf → Call pf Unit
  | .setString h_type message => api.PyErr_SetString (api._h2py h_type) message
  | .setObject h_type h_value => api.PyErr_SetObject (api._h2py h_type) (api._h2py h_value)
  | .clear => api.PyErr_Clear

/-- A sequence of calls, run one after the other on the interpreter state. -/
def runCalls {pf : Platform} (run : ErrCall pf → Call pf Unit) :
    List (ErrCall pf) → Call pf Unit
  | [] => pure ()
  | c :: cs => do
    run c
    runCalls run cs

/-! ## Client programs of the composition claim -/

/-- The expression `Long_AsLong(ctx, Add(ctx, Long_FromLong(ctx, a),
Long_FromLong(ctx, b)))`.  C leaves the order of the two inner calls open;
`rightFirst` picks it. -/
def sumViaHeader {pf : Platform} (api : Env pf) (ctx : pf.HPyContext) (rightFirst : Bool)
    (a b : CLong pf) : Call pf (CLong pf) :=
  if rightFirst then do
    let hb ← Impl.Long_FromLong api ctx b
    let ha ← Impl.Long_FromLong api ctx a
    let hs ← Impl.Add api ctx ha hb
    Impl.Long_AsLong api ctx hs
  else do
    let ha ← Impl.Long_FromLong api ctx a
    let hb ← Impl.Long_FromLong api ctx b
    let hs ← Impl.Add api ctx ha hb
    Impl.Long_AsLong api ctx hs

/-- The expression `PyLong_AsLong(PyNumber_Add(PyLong_FromLong(a),
PyLong_FromLong(b)))`, with the same choice of order. -/
def sumViaNative {pf : Platform} (api : Env pf) (rightFirst : Bool)
    (a b : CLong pf) : Call pf (CLong pf) :=
  if rightFirst then do
    let pb ← api.PyLong_FromLong b
    let pa ← api.PyLong_FromLong a
    let ps ← api.PyNumber_Add pa pb
    api.PyLong_AsLong ps
  else do
    let pa ← api.PyLong_FromLong a
    let pb ← api.PyLong_FromLong b
    let ps ← api.PyNumber_Add pa pb
    api.PyLong_AsLong ps

/-- The expression `Long_AsLong(ctx, Long_FromLong(ctx, a))`. -/
def roundTripViaHeader {pf : Platform} (api : Env pf) (ctx : pf.HPyContext)
    (a : CLong pf) : Call pf (CLong pf) := do
  let h ← Impl.Long_FromLong api ctx a
  Impl.Long_AsLong api ctx h

/-- The expression `PyLong_AsLong(PyLong_FromLong(a))`. -/
def roundTripViaNative {pf : Platform} (api : Env pf) (a : CLong pf) : Call pf (CLong pf) := do
  let p ← api.PyLong_FromLong a
  api.PyLong_AsLong p

/-! ## Conversions measured on a run

Each function of the header is run in the symbolic environment on arguments
that tell the positions apart; the conversions are then read off the recorded
native call and off the result. -/

/-- A symbolic argument for a parameter: the handle numbered by its position,
or the position itself for a parameter of any other type. -/
def probeArg : (t : CTy) → Nat → CTy.denote probePlatform Probe t
  | .hpy, i => Probe.handle i
  | .int, i => CInt.ofInt i
  | .long, i => CInt.ofInt i
  | .ulong, i => CInt.ofInt i
  | .longLong, i => CInt.ofInt i
  | .ulongLong, i => CInt.ofInt i
  | .size, i => CInt.ofInt i
  | .ssize, i => CInt.ofInt i
  | .hash, i => CInt.ofInt i
  | .double, i => Int.ofNat i
  | .charPtr, i => i
  | .wcharPtr, i => i
  | .void, _ => ()

/-- Symbolic arguments for a parameter list, numbered from `i`. -/
def probeArgs : (ts : List CTy) → Nat → Args probePlatform Probe ts
  | [], _ => ()
  | t :: ts, i => (probeArg t i, probeArgs ts (i + 1))

/-- The run of `w` on its symbolic arguments from the initial state. -/
def Wrapper.probeRun (w : Wrapper) : CTy.denote probePlatform Probe w.ret × ProbeState :=
  (w.invoke probeEnv probeCtx (probeArgs w.params 1)).run probeInit

/-- Number of `_py2h` conversions on a result of the given type. -/
def CTy.countPy2h : (t : CTy) → CTy.denote probePlatform Probe t → Nat
  | .hpy, p => p.countPy2h
  | .int, _ => 0
  | .long, _ => 0
  | .ulong, _ => 0
  | .longLong, _ => 0
  | .ulongLong, _ => 0
  | .size, _ => 0
  | .ssize, _ => 0
  | .hash, _ => 0
  | .double, _ => 0
  | .charPtr, _ => 0
  | .wcharPtr, _ => 0
  | .void, _ => 0

/-- Number of `_h2py` conversions `w` makes on the way in: those the arguments
of its recorded native calls carry. -/
def Wrapper.conversionsIn (w : Wrapper) : Nat :=
  (w.probeRun.2.calls.map Probe.countH2py).sum

/-- Number of `_py2h` conversions `w` makes on the way out: those at the head
of its result. -/
def Wrapper.conversionsOut (w : Wrapper) : Nat :=
  CTy.countPy2h w.ret w.probeRun.1

/-- The translation step read word for word: a handle argument is converted on
the way in and the result is converted to a handle on the way out. -/
def Wrapper.HandleInHandleOut (w : Wrapper) : Prop :=
  1 ≤ w.conversionsIn ∧ w.conversionsOut = 1

instance Wrapper.instDecidableHandleInHandleOut (w : Wrapper) :
    Decidable w.HandleInHandleOut := by
  unfold Wrapper.HandleInHandleOut
  exact inferInstance

/-! ## Pass-through of results that are not handles -/

/-- The call `w` made through the header returns the value the native call `n`
returns, and leaves the state it leaves. -/
def ReturnsNative {pf : Platform} {α : Type} (w n : Call pf α) : Prop :=
  ∀ s : pf.State, w.run s = n.run s

/-- The same for a result of a C integer type, with the error sentinel spelled
out: `w` returns it exactly when `n` does. -/
def ForwardsInt {pf : Platform} {signed : Bool} {bits : Nat}
    (w n : Call pf (CInt signed bits)) : Prop :=
  ∀ s : pf.State, w.run s = n.run s ∧
    ((w.run s).1 = CInt.errSentinel ↔ (n.run s).1 = CInt.errSentinel)

/-! ## Lemmas -/

/-- Every function of the header is the translation step for its signature. -/
theorem Wrapper.invoke_eq_forward {pf : Platform} (api : Env pf) (w : Wrapper)
    (ctx : pf.HPyContext) (args : Args pf pf.HPy w.params) :
    w.invoke api ctx args = forward api w args := by
  cases w <;> rfl

/-- A call returns what it returns. -/
theorem returnsNative_refl {pf : Platform} {α : Type} (m : Call pf α) : ReturnsNative m m :=
  fun _ => rfl

/-- A call returns the error sentinel exactly when it does. -/
theorem forwardsInt_refl {pf : Platform} {signed : Bool} {bits : Nat}
    (m : Call pf (CInt signed bits)) : ForwardsInt m m :=
  fun _ => ⟨rfl, Iff.rfl⟩

/-- Converting a value of a C integer type to that same type changes nothing. -/
theorem CInt.ofInt_val {signed : Bool} {bits : Nat} (v : CInt signed bits) :
    CInt.ofInt v.val = v := by
  obtain ⟨x, hx⟩ := v
  apply Subtype.ext
  show CInt.wrap signed bits x = x
  unfold CInt.InRange at hx
  unfold CInt.wrap
  cases signed
  · simp only [Bool.false_eq_true, if_false] at hx ⊢
    exact Int.emod_eq_of_lt hx.1 hx.2
  · simp only [if_true] at hx ⊢
    have h : (x + (2 : Int) ^ (bits - 1)) % (2 * (2 : Int) ^ (bits - 1)) = x + (2 : Int) ^ (bits - 1) :=
      Int.emod_eq_of_lt (by linarith [hx.1]) (by linarith [hx.2])
    rw [h]
    ring

/-- The three functions that return nothing are their native calls. -/
theorem ErrCall.wrapper_eq_native {pf : Platform} (api : Env pf) (ctx : pf.HPyContext) :
    ErrCall.wrapper api ctx = ErrCall.native api := by
  funext c
  cases c <;> rfl

/-! ## The claims -/

/-- C1: each two-operand number function returns `_py2h` of what the native
function of the same name returns on `_h2py h1` as left operand and `_h2py h2`
as right operand, and leaves the state that native call leaves. -/
theorem C1_binary_number_functions {pf : Platform} (api : Env pf) (op : BinOp)
    (ctx : pf.HPyContext) (h1 h2 : pf.HPy) (s : pf.State) :
    (op.wrapper api ctx h1 h2).run s
      = (api._py2h ((op.native api (api._h2py h1) (api._h2py h2)).run s).1,
         ((op.native api (api._h2py h1) (api._h2py h2)).run s).2) := by
  cases op <;> rfl

/-- C2, as stated, fails: `Err_Clear` converts nothing on the way in and nothing
on the way out, `Long_FromLong` converts nothing on the way in, and
`Long_AsLong` converts nothing on the way out.  The runs in the symbolic
environment show the calls behind the counts. -/
theorem C2_counterexample :
    ¬ Wrapper.HandleInHandleOut Wrapper.Err_Clear ∧
    ¬ Wrapper.HandleInHandleOut Wrapper.Long_FromLong ∧
    ¬ Wrapper.HandleInHandleOut Wrapper.Long_AsLong ∧
    (Impl.Err_Clear probeEnv probeCtx).run probeInit
      = ((), { calls := [Probe.call0 Wrapper.Err_Clear], err := none }) ∧
    (Impl.Long_FromLong probeEnv probeCtx (CInt.ofInt 5)).run probeInit
      = (Probe.py2h (Probe.call1 Wrapper.Long_FromLong (Probe.int 5)),
         { calls := [Probe.call1 Wrapper.Long_FromLong (Probe.int 5)], err := none }) ∧
    ((Impl.Long_AsLong probeEnv probeCtx (Probe.handle 1)).run probeInit).2
      = { calls := [Probe.call1 Wrapper.Long_AsLong (Probe.h2py (Probe.handle 1))], err := none } := by
  refine ⟨by decide, by decide, by decide, rfl, rfl, rfl⟩

/-- C2, amended: every function of the header is the translation step for its
own signature.  It converts each handle argument with `_h2py` and passes every
other argument as it is, in position (`convArgs`); it calls its native
function; it converts the result with `_py2h` when the return type is `HPy` and
returns it as it is otherwise (`convRet`).  Measured on a run, it makes one
`_h2py` conversion for each handle parameter and one `_py2h` conversion exactly
when it returns a handle. -/
theorem C2_translation_step_by_signature {pf : Platform} (api : Env pf) (w : Wrapper)
    (ctx : pf.HPyContext) (args : Args pf pf.HPy w.params) (s : pf.State) :
    (w.invoke api ctx args).run s
      = (convRet api w.ret ((w.native api (convArgs api w.params args)).run s).1,
         ((w.native api (convArgs api w.params args)).run s).2) ∧
    w.conversionsIn = w.params.count CTy.hpy ∧
    w.conversionsOut = (if w.ret = CTy.hpy then 1 else 0) := by
  refine ⟨?_, ?_, ?_⟩
  · rw [Wrapper.invoke_eq_forward]
    rfl
  · cases w <;> decide
  · cases w <;> decide

/-- C3: every function of the header whose result is not a handle returns the
value its native function returns on the converted arguments and leaves the
state it leaves; one that returns a C integer returns the error sentinel (`-1`
converted to its type) exactly when the native call does. -/
theorem C3_scalar_results_pass_through {pf : Platform} (api : Env pf) :
    (∀ (ctx : pf.HPyContext) (h : pf.HPy),
      ForwardsInt (Impl.Long_AsLong api ctx h) (api.PyLong_AsLong (api._h2py h))) ∧
    (∀ (ctx : pf.HPyContext) (h : pf.HPy),
      ForwardsInt (Impl.Long_AsUnsignedLong api ctx h) (api.PyLong_AsUnsignedLong (api._h2py h))) ∧
    (∀ (ctx : pf.HPyContext) (h : pf.HPy),
      ForwardsInt (Impl.Long_AsUnsignedLongMask api ctx h) (api.PyLong_AsUnsignedLongMask (api._h2py h))) ∧
    (∀ (ctx : pf.HPyContext) (h : pf.HPy),
      ForwardsInt (Impl.Long_AsLongLong api ctx h) (api.PyLong_AsLongLong (api._h2py h))) ∧
    (∀ (ctx : pf.HPyContext) (h : pf.HPy),
      ForwardsInt (Impl.Long_AsUnsignedLongLong api ctx h) (api.PyLong_AsUnsignedLongLong (api._h2py h))) ∧
    (∀ (ctx : pf.HPyContext) (h : pf.HPy),
      ForwardsInt (Impl.Long_AsUnsignedLongLongMask api ctx h) (api.PyLong_AsUnsignedLongLongMask (api._h2py h))) ∧
    (∀ (ctx : pf.HPyContext) (h : pf.HPy),
      ForwardsInt (Impl.Long_AsSize_t api ctx h) (api.PyLong_AsSize_t (api._h2py h))) ∧
    (∀ (ctx : pf.HPyContext) (h : pf.HPy),
      ForwardsInt (Impl.Long_AsSsize_t api ctx h) (api.PyLong_AsSsize_t (api._h2py h))) ∧
    (∀ (ctx : pf.HPyContext) (h : pf.HPy),
      ForwardsInt (Impl.Length api ctx h) (api.PyObject_Length (api._h2py h))) ∧
    (∀ (ctx : pf.HPyContext) (h : pf.HPy),
      ForwardsInt (Impl.Number_Check api ctx h) (api.PyNumber_Check (api._h2py h))) ∧
    (∀ (ctx : pf.HPyContext) (h : pf.HPy),
      ForwardsInt (Impl.IsTrue api ctx h) (api.PyObject_IsTrue (api._h2py h))) ∧
    (∀ (ctx : pf.HPyContext) (obj : pf.HPy) (name : pf.HPy),
      ForwardsInt (Impl.HasAttr api ctx obj name) (api.PyObject_HasAttr (api._h2py obj) (api._h2py name))) ∧
    (∀ (ctx : pf.HPyContext) (obj : pf.HPy) (name : pf.CharPtr),
      ForwardsInt (Impl.HasAttr_s api ctx obj name) (api.PyObject_HasAttrString (api._h2py obj) name)) ∧
    (∀ (ctx : pf.HPyContext) (obj : pf.HPy) (name : pf.HPy) (value : pf.HPy),
      ForwardsInt (Impl.SetAttr api ctx obj name value) (api.PyObject_SetAttr (api._h2py obj) (api._h2py name) (api._h2py value))) ∧
    (∀ (ctx : pf.HPyContext) (obj : pf.HPy) (name : pf.CharPtr) (value : pf.HPy),
      ForwardsInt (Impl.SetAttr_s api ctx obj name value) (api.PyObject_SetAttrString (api._h2py obj) name (api._h2py value))) ∧
    (∀ (ctx : pf.HPyContext) (obj : pf.HPy) (key : pf.HPy) (value : pf.HPy),
      ForwardsInt (Impl.SetItem api ctx obj key value) (api.PyObject_SetItem (api._h2py obj) (api._h2py key) (api._h2py value))) ∧
    (∀ (ctx : pf.HPyContext) (v : pf.HPy) (w : pf.HPy) (op : CIntT pf),
      ForwardsInt (Impl.RichCompareBool api ctx v w op) (api.PyObject_RichCompareBool (api._h2py v) (api._h2py w) op)) ∧
    (∀ (ctx : pf.HPyContext) (obj : pf.HPy),
      ForwardsInt (Impl.Hash api ctx obj) (api.PyObject_Hash (api._h2py obj))) ∧
    (∀ (ctx : pf.HPyContext) (h : pf.HPy),
      ForwardsInt (Impl.Bytes_Check api ctx h) (api.PyBytes_Check (api._h2py h))) ∧
    (∀ (ctx : pf.HPyContext) (h : pf.HPy),
      ForwardsInt (Impl.Bytes_Size api ctx h) (api.PyBytes_Size (api._h2py h))) ∧
    (∀ (ctx : pf.HPyContext) (h : pf.HPy),
      ForwardsInt (Impl.Bytes_GET_SIZE api ctx h) (api.PyBytes_GET_SIZE (api._h2py h))) ∧
    (∀ (ctx : pf.HPyContext) (h : pf.HPy),
      ForwardsInt (Impl.Unicode_Check api ctx h) (api.PyUnicode_Check (api._h2py h))) ∧
    (∀ (ctx : pf.HPyContext) (h : pf.HPy),
      ForwardsInt (Impl.List_Check api ctx h) (api.PyList_Check (api._h2py h))) ∧
    (∀ (ctx : pf.HPyContext) (h_list : pf.HPy) (h_item : pf.HPy),
      ForwardsInt (Impl.List_Append api ctx h_list h_item) (api.PyList_Append (api._h2py h_list) (api._h2py h_item))) ∧
    (∀ (ctx : pf.HPyContext) (h : pf.HPy),
      ForwardsInt (Impl.Dict_Check api ctx h) (api.PyDict_Check (api._h2py h))) ∧
    (∀ (ctx : pf.HPyContext) (h : pf.HPy),
      ReturnsNative (Impl.Float_AsDouble api ctx h) (api.PyFloat_AsDouble (api._h2py h))) ∧
    (∀ (ctx : pf.HPyContext) (h : pf.HPy),
      ReturnsNative (Impl.Bytes_AsString api ctx h) (api.PyBytes_AsString (api._h2py h))) ∧
    (∀ (ctx : pf.HPyContext) (h : pf.HPy),
      ReturnsNative (Impl.Bytes_AS_STRING api ctx h) (api.PyBytes_AS_STRING (api._h2py h))) := by
  split_ands <;> intros <;> first | exact forwardsInt_refl _ | exact returnsNative_refl _

/-- C4: in the functions that take handles together with other arguments, the
C string, the comparison operator, the buffer pointer and the length reach the
native function as they are and in their position, and each handle reaches it
as its `_h2py` image in its position. -/
theorem C4_mixed_arguments_keep_position {pf : Platform} (api : Env pf) :
    (∀ (ctx : pf.HPyContext) (obj : pf.HPy) (name : pf.CharPtr) (s : pf.State),
      (Impl.GetAttr_s api ctx obj name).run s
        = (api._py2h ((api.PyObject_GetAttrString (api._h2py obj) name).run s).1,
           ((api.PyObject_GetAttrString (api._h2py obj) name).run s).2)) ∧
    (∀ (ctx : pf.HPyContext) (obj : pf.HPy) (name : pf.CharPtr) (s : pf.State),
      (Impl.HasAttr_s api ctx obj name).run s
        = (api.PyObject_HasAttrString (api._h2py obj) name).run s) ∧
    (∀ (ctx : pf.HPyContext) (obj : pf.HPy) (name : pf.CharPtr) (value : pf.HPy) (s : pf.State),
      (Impl.SetAttr_s api ctx obj name value).run s
        = (api.PyObject_SetAttrString (api._h2py obj) name (api._h2py value)).run s) ∧
    (∀ (ctx : pf.HPyContext) (v : pf.HPy) (w : pf.HPy) (op : CIntT pf) (s : pf.State),
      (Impl.RichCompare api ctx v w op).run s
        = (api._py2h ((api.PyObject_RichCompare (api._h2py v) (api._h2py w) op).run s).1,
           ((api.PyObject_RichCompare (api._h2py v) (api._h2py w) op).run s).2)) ∧
    (∀ (ctx : pf.HPyContext) (v : pf.HPy) (w : pf.HPy) (op : CIntT pf) (s : pf.State),
      (Impl.RichCompareBool api ctx v w op).run s
        = (api.PyObject_RichCompareBool (api._h2py v) (api._h2py w) op).run s) ∧
    (∀ (ctx : pf.HPyContext) (v : pf.CharPtr) (len : CSsize pf) (s : pf.State),
      (Impl.Bytes_FromStringAndSize api ctx v len).run s
        = (api._py2h ((api.PyBytes_FromStringAndSize v len).run s).1,
           ((api.PyBytes_FromStringAndSize v len).run s).2)) ∧
    (∀ (ctx : pf.HPyContext) (w : pf.WCharPtr) (size : CSsize pf) (s : pf.State),
      (Impl.Unicode_FromWideChar api ctx w size).run s
        = (api._py2h ((api.PyUnicode_FromWideChar w size).run s).1,
           ((api.PyUnicode_FromWideChar w size).run s).2)) := by
  split_ands <;> intros <;> rfl

/-- C5: the three functions that return nothing leave the state their native
call leaves, from every state, and so does every sequence of them: the header
keeps no state of its own between calls. -/
theorem C5_void_functions_leave_native_state {pf : Platform} (api : Env pf)
    (ctx : pf.HPyContext) :
    (∀ (h_type : pf.HPy) (message : pf.CharPtr) (s : pf.State),
      ((Impl.Err_SetString api ctx h_type message).run s).2
        = ((api.PyErr_SetString (api._h2py h_type) message).run s).2) ∧
    (∀ (h_type h_value : pf.HPy) (s : pf.State),
      ((Impl.Err_SetObject api ctx h_type h_value).run s).2
        = ((api.PyErr_SetObject (api._h2py h_type) (api._h2py h_value)).run s).2) ∧
    (∀ s : pf.State, ((Impl.Err_Clear api ctx).run s).2 = (api.PyErr_Clear.run s).2) ∧
    (∀ (calls : List (ErrCall pf)) (s : pf.State),
      ((runCalls (ErrCall.wrapper api ctx) calls).run s).2
        = ((runCalls (ErrCall.native api) calls).run s).2) := by
  refine ⟨fun _ _ _ => rfl, fun _ _ _ => rfl, fun _ => rfl, fun calls s => ?_⟩
  rw [ErrCall.wrapper_eq_native]

/-- C6: each in-place number function returns `_py2h` of what the in-place
native function of the same name returns on the converted operands, and
`Power` and `InPlacePower` do so with their three operands in order.  In the
symbolic environment, where the in-place and the plain native function are
told apart, the result of an in-place function is never that of the plain
native function. -/
theorem C6_inplace_and_power_functions {pf : Platform} (api : Env pf) (ctx : pf.HPyContext) :
    (∀ (op : InPlaceOp) (h1 h2 : pf.HPy) (s : pf.State),
      (op.wrapper api ctx h1 h2).run s
        = (api._py2h ((op.native api (api._h2py h1) (api._h2py h2)).run s).1,
           ((op.native api (api._h2py h1) (api._h2py h2)).run s).2)) ∧
    (∀ (h1 h2 h3 : pf.HPy) (s : pf.State),
      (Impl.Power api ctx h1 h2 h3).run s
        = (api._py2h ((api.PyNumber_Power (api._h2py h1) (api._h2py h2) (api._h2py h3)).run s).1,
           ((api.PyNumber_Power (api._h2py h1) (api._h2py h2) (api._h2py h3)).run s).2)) ∧
    (∀ (h1 h2 h3 : pf.HPy) (s : pf.State),
      (Impl.InPlacePower api ctx h1 h2 h3).run s
        = (api._py2h
            ((api.PyNumber_InPlacePower (api._h2py h1) (api._h2py h2) (api._h2py h3)).run s).1,
           ((api.PyNumber_InPlacePower (api._h2py h1) (api._h2py h2) (api._h2py h3)).run s).2)) ∧
    (∀ (op : InPlaceOp) (h1 h2 : Probe) (s : ProbeState),
      ((op.wrapper probeEnv probeCtx h1 h2).run s).1
        ≠ probeEnv._py2h
            ((op.plainNative probeEnv (probeEnv._h2py h1) (probeEnv._h2py h2)).run s).1) := by
  refine ⟨fun op _ _ _ => ?_, fun _ _ _ _ => rfl, fun _ _ _ _ => rfl, fun op h1 h2 s => ?_⟩
  · cases op <;> rfl
  · cases op <;> (intro h; cases h)

/-- C7: each of the six integer constructors hands its argument to the native
constructor of the same C type as it received it, and each of the eight
integer extractors returns the native result in the same C type; converting a
value of a C integer type to that type changes nothing, so no truncation, sign
change or reduction modulo `2^w` occurs on the way. -/
theorem C7_integers_pass_unchanged {pf : Platform} (api : Env pf) :
    (∀ (ctx : pf.HPyContext) (value : CLong pf) (s : pf.State),
      (Impl.Long_FromLong api ctx value).run s
        = (api._py2h ((api.PyLong_FromLong value).run s).1,
           ((api.PyLong_FromLong value).run s).2)) ∧
    (∀ (ctx : pf.HPyContext) (value : CULong pf) (s : pf.State),
      (Impl.Long_FromUnsignedLong api ctx value).run s
        = (api._py2h ((api.PyLong_FromUnsignedLong value).run s).1,
           ((api.PyLong_FromUnsignedLong value).run s).2)) ∧
    (∀ (ctx : pf.HPyContext) (v : CLongLong pf) (s : pf.State),
      (Impl.Long_FromLongLong api ctx v).run s
        = (api._py2h ((api.PyLong_FromLongLong v).run s).1,
           ((api.PyLong_FromLongLong v).run s).2)) ∧
    (∀ (ctx : pf.HPyContext) (v : CULongLong pf) (s : pf.State),
      (Impl.Long_FromUnsignedLongLong api ctx v).run s
        = (api._py2h ((api.PyLong_FromUnsignedLongLong v).run s).1,
           ((api.PyLong_FromUnsignedLongLong v).run s).2)) ∧
    (∀ (ctx : pf.HPyContext) (value : CSize pf) (s : pf.State),
      (Impl.Long_FromSize_t api ctx value).run s
        = (api._py2h ((api.PyLong_FromSize_t value).run s).1,
           ((api.PyLong_FromSize_t value).run s).2)) ∧
    (∀ (ctx : pf.HPyContext) (value : CSsize pf) (s : pf.State),
      (Impl.Long_FromSsize_t api ctx value).run s
        = (api._py2h ((api.PyLong_FromSsize_t value).run s).1,
           ((api.PyLong_FromSsize_t value).run s).2)) ∧
    (∀ (ctx : pf.HPyContext) (h : pf.HPy) (s : pf.State),
      (Impl.Long_AsLong api ctx h).run s
        = (api.PyLong_AsLong (api._h2py h)).run s) ∧
    (∀ (ctx : pf.HPyContext) (h : pf.HPy) (s : pf.State),
      (Impl.Long_AsUnsignedLong api ctx h).run s
        = (api.PyLong_AsUnsignedLong (api._h2py h)).run s) ∧
    (∀ (ctx : pf.HPyContext) (h : pf.HPy) (s : pf.State),
      (Impl.Long_AsUnsignedLongMask api ctx h).run s
        = (api.PyLong_AsUnsignedLongMask (api._h2py h)).run s) ∧
    (∀ (ctx : pf.HPyContext) (h : pf.HPy) (s : pf.State),
      (Impl.Long_AsLongLong api ctx h).run s
        = (api.PyLong_AsLongLong (api._h2py h)).run s) ∧
    (∀ (ctx : pf.HPyContext) (h : pf.HPy) (s : pf.State),
      (Impl.Long_AsUnsignedLongLong api ctx h).run s
        = (api.PyLong_AsUnsignedLongLong (api._h2py h)).run s) ∧
    (∀ (ctx : pf.HPyContext) (h : pf.HPy) (s : pf.State),
      (Impl.Long_AsUnsignedLongLongMask api ctx h).run s
        = (api.PyLong_AsUnsignedLongLongMask (api._h2py h)).run s) ∧
    (∀ (ctx : pf.HPyContext) (h : pf.HPy) (s : pf.State),
      (Impl.Long_AsSize_t api ctx h).run s
        = (api.PyLong_AsSize_t (api._h2py h)).run s) ∧
    (∀ (ctx : pf.HPyContext) (h : pf.HPy) (s : pf.State),
      (Impl.Long_AsSsize_t api ctx h).run s
        = (api.PyLong_AsSsize_t (api._h2py h)).run s) ∧
    (∀ (signed : Bool) (bits : Nat) (v : CInt signed bits), CInt.ofInt v.val = v) := by
  split_ands <;> intros <;> first | rfl | exact CInt.ofInt_val _

/-- C8: the result of a function of the header and the state it leaves do not
depend on the context argument. -/
theorem C8_context_is_ignored {pf : Platform} (api : Env pf) (w : Wrapper)
    (ctx1 ctx2 : pf.HPyContext) (args : Args pf pf.HPy w.params) (s : pf.State) :
    (w.invoke api ctx1 args).run s = (w.invoke api ctx2 args).run s := by
  rw [Wrapper.invoke_eq_forward, Wrapper.invoke_eq_forward]

/-- C9: when `_h2py (_py2h p) = p` for every object pointer `p`, the sum
computed through the header is the sum computed through the native API, for
either order of the two inner calls, the round trip through the header is the
round trip through the native API, and so every law of the native round trip
holds of the round trip through the header. -/
theorem C9_header_is_transparent {pf : Platform} (api : Env pf)
    (hinv : ∀ p : pf.PyObject, api._h2py (api._py2h p) = p)
    (ctx : pf.HPyContext) (a b : CLong pf) :
    (∀ rightFirst : Bool, sumViaHeader api ctx rightFirst a b = sumViaNative api rightFirst a b) ∧
    roundTripViaHeader api ctx a = roundTripViaNative api a ∧
    (∀ Law : (CLong pf → Call pf (CLong pf)) → Prop,
      Law (roundTripViaNative api) → Law (roundTripViaHeader api ctx)) := by
  have hrt : roundTripViaHeader api ctx = roundTripViaNative api := by
    funext x
    simp only [roundTripViaHeader, roundTripViaNative, Impl.Long_FromLong, Impl.Long_AsLong,
      map_eq_pure_bind, bind_assoc, pure_bind, hinv]
  refine ⟨fun rightFirst => ?_, congrFun hrt a, fun Law h => hrt ▸ h⟩
  cases rightFirst <;>
    simp only [sumViaHeader, sumViaNative, Impl.Long_FromLong, Impl.Long_AsLong, Impl.Add,
      map_eq_pure_bind, bind_assoc, pure_bind, hinv, if_true, if_false, Bool.false_eq_true]

/-- C9 at the symbolic environment, with `a = 2` and `b = 3`. -/
theorem C9_header_is_transparent_witness :
    (∀ p : Probe, probeEnv._h2py (probeEnv._py2h p) = p) ∧
    ((∀ rightFirst : Bool,
        sumViaHeader probeEnv probeCtx rightFirst (CInt.ofInt 2) (CInt.ofInt 3)
          = sumViaNative probeEnv rightFirst (CInt.ofInt 2) (CInt.ofInt 3)) ∧
      roundTripViaHeader probeEnv probeCtx (CInt.ofInt 2)
        = roundTripViaNative probeEnv (CInt.ofInt 2) ∧
      (∀ Law : (CLong probePlatform → Call probePlatform (CLong probePlatform)) → Prop,
        Law (roundTripViaNative probeEnv) → Law (roundTripViaHeader probeEnv probeCtx))) :=
  ⟨fun _ => rfl, C9_header_is_transparent probeEnv (fun _ => rfl) probeCtx (CInt.ofInt 2) (CInt.ofInt 3)⟩

/-! ## Checks on the symbolic environment

Runs of single functions, read off the recorded calls. -/

/-- The function `Subtract` hands `h1` to the native function as left operand and `h2` as
right operand, each converted once, and converts the result once. -/
theorem probe_Subtract_operand_order :
    (Impl.Subtract probeEnv probeCtx (Probe.handle 1) (Probe.handle 2)).run probeInit
      = (Probe.py2h (Probe.call2 Wrapper.Subtract (Probe.h2py (Probe.handle 1))
            (Probe.h2py (Probe.handle 2))),
         { calls := [Probe.call2 Wrapper.Subtract (Probe.h2py (Probe.handle 1))
            (Probe.h2py (Probe.handle 2))], err := none }) :=
  rfl

/-- The function `SetAttr_s` hands the object, the name and the value over in that order,
the name as it is. -/
theorem probe_SetAttr_s_positions :
    ((Impl.SetAttr_s probeEnv probeCtx (Probe.handle 1) (7 : Nat) (Probe.handle 3)).run
        probeInit).2
      = { calls := [Probe.call3 Wrapper.SetAttr_s (Probe.h2py (Probe.handle 1)) (Probe.int 7)
            (Probe.h2py (Probe.handle 3))], err := none } :=
  rfl

/-- The largest `unsigned long` reaches `PyLong_FromUnsignedLong` as itself,
not as `-1`. -/
theorem probe_Long_FromUnsignedLong_max :
    ((Impl.Long_FromUnsignedLong probeEnv probeCtx (CInt.ofInt (2 ^ 64 - 1))).run probeInit).1
      = Probe.py2h (Probe.call1 Wrapper.Long_FromUnsignedLong (Probe.int 18446744073709551615)) := by
  decide

/-- Setting an error through the header sets the error indicator, and clearing
it through the header clears it. -/
theorem probe_error_indicator :
    ((runCalls (ErrCall.wrapper probeEnv probeCtx)
        [ErrCall.setString (Probe.handle 1) (7 : Nat)]).run probeInit).2.err
      = some (Probe.call2 Wrapper.Err_SetString (Probe.h2py (Probe.handle 1)) (Probe.int 7)) ∧
    ((runCalls (ErrCall.wrapper probeEnv probeCtx)
        [ErrCall.setString (Probe.handle 1) (7 : Nat), ErrCall.clear]).run probeInit).2.err
      = none :=
  ⟨rfl, rfl⟩

/-- The round trip of `5` through the header yields `5`, and an object that is
not an integer yields the error sentinel. -/
theorem probe_round_trip :
    ((roundTripViaHeader probeEnv probeCtx (CInt.ofInt 5)).run probeInit).1.val = 5 ∧
    ((Impl.Long_AsLong probeEnv probeCtx (Probe.handle 1)).run probeInit).1
      = CInt.errSentinel := by
  decide
